import Mathlib

/-!
Verification of the LidarWorldModel runtime core against its specification.

This file is a shallow embedding, in Lean 4, of the run-lifecycle core of the
repository: the status taxonomy (`include/wm/core/status.hpp`), the run-log
pruning of `NodeRunner` (`src/core/model/node_runner.cpp`), the JSONL event
sink (`src/core/events/jsonl_event_sink.cpp`, both snapshots), the
configuration validation (`include/wm/core/config.hpp`), the directory-backed
frame source (`src/adapters/frame_dir/frame_dir_source.cpp`, both snapshots)
and the FNV-1a reproducibility fingerprints (`src/core/util/repro_hash.cpp`).

Modelling conventions:
* `std::string` is modelled as Lean `String` (byte-wise lexicographic
  comparison on strings agrees with comparison of the unicode scalar lists
  because UTF-8 preserves code-point order).
* Machine integers are `Int`/`Nat`; wrap-around is written explicitly with
  `% 2 ^ w` where the code relies on a fixed width.
* `float`/`double` values that are only absorbed bit-wise into a hash are
  modelled by their IEEE-754 bit patterns as `Nat`; `float`/`double` values
  that are only compared against constants by `validate_config` are modelled
  as `ℚ` (the comparisons performed are order comparisons that agree with the
  IEEE ones on the finite values involved).
* The filesystem is modelled explicitly: a directory is a list of
  `(filename, is_regular_file)` entries, file contents are `List Nat`
  (byte values), and a file store is a partial map from names to contents.
* Fallible operations return `Except Status` / pair a `Status` with the
  unchanged or updated state, exactly following the C++ control flow.
-/

set_option maxRecDepth 10000

/-! # Status taxonomy (`include/wm/core/status.hpp`) -/

inductive StatusCode where
  | ok
  | invalidArgument
  | outOfRange
  | notFound
  | ioError
  | permissionDenied
  | parseError
  | corruptData
  | unsupportedOp
  | internalError
deriving DecidableEq, Repr

structure Status where
  code : StatusCode := StatusCode.ok
  message : String := ""
deriving DecidableEq, Repr

def Status.ok_status : Status := {}

def Status.invalid_argument (m : String) : Status := ⟨StatusCode.invalidArgument, m⟩

def Status.out_of_range (m : String) : Status := ⟨StatusCode.outOfRange, m⟩

def Status.not_found (m : String) : Status := ⟨StatusCode.notFound, m⟩

def Status.io_error (m : String) : Status := ⟨StatusCode.ioError, m⟩

def Status.parse_error (m : String) : Status := ⟨StatusCode.parseError, m⟩

def Status.corrupt_data (m : String) : Status := ⟨StatusCode.corruptData, m⟩

def Status.internal (m : String) : Status := ⟨StatusCode.internalError, m⟩

def Status.isOk (s : Status) : Bool := s.code == StatusCode.ok

/-! # Run-log file names and pruning (`src/core/model/node_runner.cpp`)

`NodeRunner::prune_out_dir` lists the output directory, keeps the regular
files whose names parse as `events_<digits>.jsonl`, sorts them by the embedded
epoch-nanosecond key (newest first) and removes all but the first `keep_last`.
A directory is modelled as a list of `(filename, is_regular_file)` pairs and
the pruning returns the list of surviving entries.
-/

/-- `is_digits` from `node_runner.cpp`, on the character list of the substring. -/
def is_digits (s : List Char) : Bool :=
  !s.isEmpty && s.all (fun c => decide ('0' ≤ c) && decide (c ≤ '9'))

/-- Decimal value of a digit string, as `std::stoll` computes it. -/
def decimalValue (s : List Char) : Nat :=
  s.foldl (fun acc c => acc * 10 + (c.toNat - '0'.toNat)) 0

/-- `INT64_MAX`; `std::stoll` throws `std::out_of_range` above it. -/
def int64Max : Nat := 9223372036854775807

/-- `parse_events_epoch_ns_from_name` from `node_runner.cpp`: the epoch-ns key
embedded in a run-log file name, or `-1` when the name does not have the exact
form `events_<digits>.jsonl` (the fixed name `events_latest.jsonl` and any
digit string overflowing `int64` are also rejected). -/
def parse_events_epoch_ns_from_name (name : String) : Int :=
  let pfx := "events_".data
  let sfx := ".jsonl".data
  let n := name.data
  if name = "events_latest.jsonl" then -1
  else if n.take pfx.length ≠ pfx then -1
  else if n.length ≤ pfx.length + sfx.length then -1
  else if n.drop (n.length - sfx.length) ≠ sfx then -1
  else
    let mid := (n.drop pfx.length).take (n.length - pfx.length - sfx.length)
    if !is_digits mid then -1
    else if decimalValue mid > int64Max then -1
    else (decimalValue mid : Int)

/-- A directory entry: file name and whether it is a regular file. -/
abbrev DirEntry := String × Bool

/-- The entries `prune_out_dir` collects into its `files` vector: regular
files whose name parses to a non-negative key. -/
def matchingRunLog (e : DirEntry) : Bool :=
  e.2 && decide (0 ≤ parse_events_epoch_ns_from_name e.1)

/-- Newest-first order used by the `std::sort` call in `prune_out_dir`. -/
def keyDescOrder (a b : String) : Prop :=
  parse_events_epoch_ns_from_name b ≤ parse_events_epoch_ns_from_name a

instance : DecidableRel keyDescOrder := fun a b =>
  inferInstanceAs (Decidable (parse_events_epoch_ns_from_name b ≤ parse_events_epoch_ns_from_name a))

instance : IsTotal String keyDescOrder :=
  ⟨fun a b => le_total (parse_events_epoch_ns_from_name b) (parse_events_epoch_ns_from_name a)⟩

instance : IsTrans String keyDescOrder :=
  ⟨fun _ _ _ h1 h2 => le_trans h2 h1⟩

/-- Newest-first order on the embedded keys themselves. -/
def intGe (a b : Int) : Prop := b ≤ a

instance : DecidableRel intGe := fun a b => inferInstanceAs (Decidable (b ≤ a))

instance : IsTotal Int intGe := ⟨fun a b => le_total b a⟩

instance : IsTrans Int intGe := ⟨fun _ _ _ h1 h2 => le_trans h2 h1⟩

instance : IsAntisymm Int intGe := ⟨fun _ _ h1 h2 => le_antisymm h2 h1⟩

/-- The `files` vector of `prune_out_dir` (names of the matching entries,
in directory order). -/
def pruneFiles (dir : List DirEntry) : List String :=
  (dir.filter matchingRunLog).map Prod.fst

/-- The names `prune_out_dir` removes: everything after the first `keep_last`
positions of the newest-first ordering. -/
def pruneDeleted (keep_last : Nat) (dir : List DirEntry) : List String :=
  (List.insertionSort keyDescOrder (pruneFiles dir)).drop keep_last

/-- `NodeRunner::prune_out_dir`: keep the regular `events_<digits>.jsonl`
files with the `keep_last` largest keys, delete the rest (each deletion is
modelled as succeeding; the code swallows deletion errors). The result is the
directory contents after pruning. The C++ `std::sort` comparator orders by
key only; `List.insertionSort` realises one of its permitted outputs. -/
def prune_out_dir (keep_last : Nat) (dir : List DirEntry) : List DirEntry :=
  if (pruneFiles dir).length ≤ keep_last then dir
  else dir.filter (fun e => !decide (e.1 ∈ pruneDeleted keep_last dir))

/-- The spec-side shape of a run-log name: exactly `events_<digits>.jsonl`
with a non-empty digit string. -/
def runLogPattern (name : String) : Prop :=
  ∃ ds : List Char, ds ≠ [] ∧ (∀ c ∈ ds, '0' ≤ c ∧ c ≤ '9') ∧
    name.data = "events_".data ++ ds ++ ".jsonl".data

/-- A name whose parsed key is non-negative passed every structural check of
`parse_events_epoch_ns_from_name`: it has the exact `events_<digits>.jsonl`
form and is not the fixed latest-file name. -/
theorem runLogPattern_of_nonneg_key (name : String)
    (h : 0 ≤ parse_events_epoch_ns_from_name name) :
    runLogPattern name ∧ name ≠ "events_latest.jsonl" := by
  simp only [parse_events_epoch_ns_from_name] at h
  split_ifs at h with h1 h2 h3 h4 h5 h6
  case _ => norm_num at h
  case _ => norm_num at h
  case _ => norm_num at h
  case _ => norm_num at h
  case _ => norm_num at h
  case _ => norm_num at h
  · refine ⟨?_, h1⟩
    rw [not_not] at h2 h4
    rw [not_le] at h3
    simp only [Bool.not_eq_true', Bool.not_eq_false] at h5
    simp only [is_digits, Bool.and_eq_true, List.all_eq_true, Bool.not_eq_true',
      List.isEmpty_eq_false, decide_eq_true_eq] at h5
    obtain ⟨hne, hdigits⟩ := h5
    have l7 : (['e', 'v', 'e', 'n', 't', 's', '_'] : List Char).length = 7 := rfl
    have l6 : (['.', 'j', 's', 'o', 'n', 'l'] : List Char).length = 6 := rfl
    simp only [l7, l6] at h2 h3 h4 hne hdigits
    refine ⟨List.take (name.data.length - 7 - 6) (List.drop 7 name.data), hne, hdigits, ?_⟩
    show name.data = ['e', 'v', 'e', 'n', 't', 's', '_']
      ++ List.take (name.data.length - 7 - 6) (List.drop 7 name.data)
      ++ ['.', 'j', 's', 'o', 'n', 'l']
    have hsplit1 : List.take 7 name.data ++ List.drop 7 name.data = name.data :=
      List.take_append_drop _ _
    have hsplit2 : List.take (name.data.length - 7 - 6) (List.drop 7 name.data)
        ++ List.drop (name.data.length - 7 - 6) (List.drop 7 name.data)
        = List.drop 7 name.data :=
      List.take_append_drop _ _
    have hdrop : List.drop (name.data.length - 7 - 6) (List.drop 7 name.data)
        = List.drop (name.data.length - 6) name.data := by
      rw [List.drop_drop]
      congr 1
      omega
    rw [hdrop, h4] at hsplit2
    rw [List.append_assoc, hsplit2, ← h2]
    exact hsplit1.symm

/-- Every name in the deletion list of `prune_out_dir` comes from a matching
directory entry. -/
theorem mem_pruneDeleted (keep : Nat) (dir : List DirEntry) (n : String)
    (h : n ∈ pruneDeleted keep dir) :
    ∃ e ∈ dir, matchingRunLog e = true ∧ e.1 = n := by
  have h1 : n ∈ List.insertionSort keyDescOrder (pruneFiles dir) :=
    List.drop_subset _ _ h
  have h2 : n ∈ pruneFiles dir :=
    ((List.perm_insertionSort keyDescOrder (pruneFiles dir)).mem_iff).mp h1
  rcases List.mem_map.mp h2 with ⟨e, he, rfl⟩
  rcases List.mem_filter.mp he with ⟨hed, hem⟩
  exact ⟨e, hed, hem, rfl⟩

/-- C9: for every output-directory contents and every retention count, the
runner's pruning step only deletes files whose name has the exact form
`events_<digits>.jsonl`; in particular the fixed-name `events_latest.jsonl`
and every other non-matching file survive `prune_out_dir` untouched. -/
theorem prune_never_deletes_latest_or_nonmatching
    (keep : Nat) (dir : List DirEntry) (e : DirEntry)
    (hmem : e ∈ dir) (hgone : e ∉ prune_out_dir keep dir) :
    runLogPattern e.1 ∧ e.1 ≠ "events_latest.jsonl" := by
  unfold prune_out_dir at hgone
  split_ifs at hgone with hle
  · exact absurd hmem hgone
  · by_cases hdel : e.1 ∈ pruneDeleted keep dir
    · rcases mem_pruneDeleted keep dir e.1 hdel with ⟨e', _, hm, heq⟩
      have hkey : 0 ≤ parse_events_epoch_ns_from_name e.1 := by
        have hb := (Bool.and_eq_true _ _).mp hm
        have := hb.2
        rw [decide_eq_true_eq] at this
        rwa [heq] at this
      exact runLogPattern_of_nonneg_key _ hkey
    · refine absurd (List.mem_filter.mpr ⟨hmem, ?_⟩) hgone
      simp [hdel]

/-- C9 witness: pruning a four-entry directory down to one run file deletes
`events_1.jsonl` and the theorem applies to it at these concrete inputs. -/
theorem prune_never_deletes_latest_or_nonmatching_witness :
    (("events_1.jsonl", true) ∈ ([("events_1.jsonl", true), ("events_2.jsonl", true),
        ("events_latest.jsonl", true), ("notes.txt", true)] : List DirEntry))
    ∧ (("events_1.jsonl", true) ∉ prune_out_dir 1 [("events_1.jsonl", true),
        ("events_2.jsonl", true), ("events_latest.jsonl", true), ("notes.txt", true)])
    ∧ (runLogPattern "events_1.jsonl" ∧ "events_1.jsonl" ≠ "events_latest.jsonl") :=
  ⟨by decide, by decide,
    prune_never_deletes_latest_or_nonmatching 1
      [("events_1.jsonl", true), ("events_2.jsonl", true),
        ("events_latest.jsonl", true), ("notes.txt", true)]
      ("events_1.jsonl", true) (by decide) (by decide)⟩

/-- Filtering on a predicate of the name commutes with projecting the name. -/
theorem map_fst_filter_on_fst (p : String → Bool) (l : List DirEntry) :
    (l.filter (fun e => p e.1)).map Prod.fst = (l.map Prod.fst).filter p := by
  induction l with
  | nil => rfl
  | cons a t ih => by_cases h : p a.1 <;> simp [List.filter_cons, h, ih]

/-- Dropping every member of the tail of a split keeps exactly the head part. -/
theorem filter_not_mem_of_append {α : Type*} [DecidableEq α] (t d : List α)
    (h : (t ++ d).Nodup) :
    (t ++ d).filter (fun a => !decide (a ∈ d)) = t := by
  rw [List.filter_append]
  rw [List.nodup_append] at h
  have ht : t.filter (fun a => !decide (a ∈ d)) = t :=
    List.filter_eq_self.mpr (fun a ha => by simpa using h.2.2 ha)
  have hd : d.filter (fun a => !decide (a ∈ d)) = [] :=
    List.filter_eq_nil_iff.mpr (fun a ha => by simp [ha])
  rw [ht, hd, List.append_nil]

/-- In a duplicate-free list, removing the members of `l.drop k` leaves
`l.take k`. -/
theorem filter_not_mem_drop {α : Type*} [DecidableEq α] (l : List α) (k : Nat)
    (hnd : l.Nodup) :
    l.filter (fun a => !decide (a ∈ l.drop k)) = l.take k := by
  have h := filter_not_mem_of_append (l.take k) (l.drop k)
    (by rwa [List.take_append_drop])
  calc l.filter (fun a => !decide (a ∈ l.drop k))
      = (l.take k ++ l.drop k).filter (fun a => !decide (a ∈ l.drop k)) := by
        rw [List.take_append_drop]
    _ = l.take k := h

/-- Sorting names newest-first and then reading off the keys is the same as
sorting the keys newest-first. -/
theorem map_key_insertionSort (files : List String) :
    (List.insertionSort keyDescOrder files).map parse_events_epoch_ns_from_name
      = List.insertionSort intGe (files.map parse_events_epoch_ns_from_name) := by
  apply List.eq_of_perm_of_sorted (r := intGe)
  · exact ((List.perm_insertionSort keyDescOrder files).map _).trans
      ((List.perm_insertionSort intGe _).symm)
  · exact List.Pairwise.map _ (fun a b hab => hab)
      (List.sorted_insertionSort keyDescOrder files)
  · exact List.sorted_insertionSort _ _

/-- Full characterisation of `prune_out_dir` when more than `keep` run files
match: exactly `keep` matching files survive, their keys are the `keep`
largest ones, and non-matching files are untouched. -/
theorem prune_spec (keep : Nat) (dir : List DirEntry)
    (hnd : (dir.map Prod.fst).Nodup)
    (hN : keep < (dir.filter matchingRunLog).length) :
    ((prune_out_dir keep dir).filter matchingRunLog).length = keep
    ∧ ((((prune_out_dir keep dir).filter matchingRunLog).map Prod.fst).map
        parse_events_epoch_ns_from_name).Perm
        ((List.insertionSort intGe (((dir.filter matchingRunLog).map Prod.fst).map
          parse_events_epoch_ns_from_name)).take keep)
    ∧ (prune_out_dir keep dir).filter (fun e => !matchingRunLog e)
        = dir.filter (fun e => !matchingRunLog e) := by
  have hlen : (pruneFiles dir).length = (dir.filter matchingRunLog).length := by
    simp [pruneFiles]
  have hgt : ¬ (pruneFiles dir).length ≤ keep := by omega
  have hprune : prune_out_dir keep dir
      = dir.filter (fun e => !decide (e.1 ∈ pruneDeleted keep dir)) := by
    unfold prune_out_dir
    rw [if_neg hgt]
  have hperm : (List.insertionSort keyDescOrder (pruneFiles dir)).Perm (pruneFiles dir) :=
    List.perm_insertionSort _ _
  have hfnodup : (pruneFiles dir).Nodup := by
    have hsub : (pruneFiles dir).Sublist (dir.map Prod.fst) :=
      (List.filter_sublist dir).map Prod.fst
    exact List.Nodup.sublist hsub hnd
  have hsnodup : (List.insertionSort keyDescOrder (pruneFiles dir)).Nodup :=
    hperm.symm.nodup hfnodup
  have hslen : (List.insertionSort keyDescOrder (pruneFiles dir)).length
      = (pruneFiles dir).length := hperm.length_eq
  -- (3) non-matching entries are untouched
  have h3 : (prune_out_dir keep dir).filter (fun e => !matchingRunLog e)
      = dir.filter (fun e => !matchingRunLog e) := by
    rw [hprune, List.filter_filter]
    apply List.filter_congr
    intro e hmem
    by_cases hm : matchingRunLog e
    · simp [hm]
    · have hnotdel : e.1 ∉ pruneDeleted keep dir := by
        intro hin
        rcases mem_pruneDeleted keep dir e.1 hin with ⟨e', he', hm', heq'⟩
        have hee : e' = e := List.inj_on_of_nodup_map hnd he' hmem heq'
        rw [hee] at hm'
        exact hm hm'
      simp [hm, hnotdel]
  -- surviving matching entries, at the level of names
  have hnames : ((prune_out_dir keep dir).filter matchingRunLog).map Prod.fst
      = (pruneFiles dir).filter (fun n => !decide (n ∈ pruneDeleted keep dir)) := by
    rw [hprune, List.filter_filter]
    have hcomm : dir.filter (fun e => matchingRunLog e && !decide (e.1 ∈ pruneDeleted keep dir))
        = (dir.filter matchingRunLog).filter
            (fun e => !decide (e.1 ∈ pruneDeleted keep dir)) := by
      rw [List.filter_filter]
      apply List.filter_congr
      intro e _
      exact Bool.and_comm _ _
    rw [hcomm, map_fst_filter_on_fst (fun n => !decide (n ∈ pruneDeleted keep dir))]
    rfl
  have hfiltersorted : (pruneFiles dir).filter
        (fun n => !decide (n ∈ pruneDeleted keep dir))
      |>.Perm ((List.insertionSort keyDescOrder (pruneFiles dir)).take keep) := by
    have hstep : ((List.insertionSort keyDescOrder (pruneFiles dir)).filter
          (fun n => !decide (n ∈ pruneDeleted keep dir)))
        = (List.insertionSort keyDescOrder (pruneFiles dir)).take keep := by
      have := filter_not_mem_drop (List.insertionSort keyDescOrder (pruneFiles dir))
        keep hsnodup
      simpa [pruneDeleted] using this
    exact (List.Perm.filter _ hperm.symm).trans (hstep ▸ List.Perm.refl _)
  have hcount : ((prune_out_dir keep dir).filter matchingRunLog).length = keep := by
    have h1 : ((prune_out_dir keep dir).filter matchingRunLog).length
        = ((pruneFiles dir).filter
            (fun n => !decide (n ∈ pruneDeleted keep dir))).length := by
      rw [← hnames, List.length_map]
    rw [h1, hfiltersorted.length_eq, List.length_take]
    omega
  refine ⟨hcount, ?_, h3⟩
  -- (2) the surviving keys are the `keep` largest ones
  rw [hnames]
  have hmapped := hfiltersorted.map parse_events_epoch_ns_from_name
  rw [List.map_take, map_key_insertionSort] at hmapped
  have hfiles : (pruneFiles dir).map parse_events_epoch_ns_from_name
      = ((dir.filter matchingRunLog).map Prod.fst).map parse_events_epoch_ns_from_name := rfl
  rw [hfiles] at hmapped
  exact hmapped


/-! # JSONL event sink (`src/core/events/jsonl_event_sink.cpp`)

The current snapshot of the sink writes every record line to a per-run file
`events_<wall_start_ns>.jsonl` and to the fixed `events_latest.jsonl`; its
`emit` serialises the event fields directly.  The other snapshot of the same
class (bundled after `config_loader.cpp`) additionally escapes every free-text
field through `JsonlEventSink::escape_json`; that function is embedded here
verbatim.  File streams are modelled as the strings written so far, with
healthy streams (the write/flush failure paths only report `io_error` and are
not exercised by any claim).
-/

/-- Lower-case hex digit, as `std::hex` renders it. -/
def hexDigitChar (n : Nat) : Char :=
  if n < 10 then Char.ofNat ('0'.toNat + n) else Char.ofNat ('a'.toNat + (n - 10))

/-- Four lower-case hex digits with leading zeros
(`std::setw(4) << std::setfill('0') << std::hex`). -/
def hex4 (n : Nat) : String :=
  String.mk [hexDigitChar (n / 4096 % 16), hexDigitChar (n / 256 % 16),
    hexDigitChar (n / 16 % 16), hexDigitChar (n % 16)]

/-- One character of `JsonlEventSink::escape_json`: quote, backslash and the
named control characters get two-character escapes, any other byte below
`0x20` gets a numeric `\uXXXX` escape, everything else passes through. -/
def escape_json_char (c : Char) : List Char :=
  if c = '"' then ['\\', '"']
  else if c = '\\' then ['\\', '\\']
  else if c = '\x08' then ['\\', 'b']
  else if c = '\x0c' then ['\\', 'f']
  else if c = '\n' then ['\\', 'n']
  else if c = '\r' then ['\\', 'r']
  else if c = '\t' then ['\\', 't']
  else if c.toNat < 32 then '\\' :: 'u' :: (hex4 c.toNat).data
  else [c]

/-- `JsonlEventSink::escape_json` from the escaping sink snapshot. -/
def escape_json (s : String) : String :=
  String.mk (s.data.flatMap escape_json_char)

/-- Decimal padding used when rendering the fractional second digits. -/
def padZeros (w : Nat) (s : String) : String :=
  String.mk (List.replicate (w - s.length) '0') ++ s

/-- Fixed 6-decimal rendering of `ns * 1e-9` seconds (`ns_to_s` followed by
`std::fixed << std::setprecision(6)`).  The C++ renders through a `double`;
for every timestamp appearing in a theorem below the value is an exact
microsecond multiple far from any rounding boundary, where the two renderings
agree digit for digit. -/
def fixed6_seconds (ns : Int) : String :=
  let sign := if ns < 0 then "-" else ""
  let micros := (ns.natAbs + 500) / 1000
  sign ++ toString (micros / 1000000) ++ "." ++ padZeros 6 (toString (micros % 1000000))

/-- `RunInfo` of the two-clock snapshot (`include/wm/core/events/event_sink.hpp`,
second variant): separate logical and wall start times. -/
structure RunInfoA where
  node_id : String := ""
  config_path : String := ""
  out_dir : String := ""
  config_hash : String := ""
  calibration_hash : String := ""
  start_time_ns : Int := 0
  wall_start_time_ns : Int := 0
deriving DecidableEq, Repr

/-- `Event` of the two-clock snapshot: type tag, logical and wall timestamps,
free-text message. -/
structure EventA where
  type : String := ""
  t_ns : Int := 0
  t_wall_ns : Int := 0
  message : String := ""
deriving DecidableEq, Repr

/-- State of the current `JsonlEventSink`: open flag, the two paths, and the
bytes written so far to the per-run file and the latest file. -/
structure JsonlEventSink where
  open_ : Bool := false
  path_ : String := ""
  latest_path_ : String := ""
  f_ : String := ""
  latest_ : String := ""
deriving DecidableEq, Repr

/-- `JsonlEventSink::close`: release the streams; what was written stays. -/
def JsonlEventSink.close (s : JsonlEventSink) : JsonlEventSink :=
  { s with open_ := false }

/-- `JsonlEventSink::write_line_`: append the line plus newline to both files
(streams healthy, so the `io_error` branches do not fire). -/
def JsonlEventSink.write_line_ (s : JsonlEventSink) (line : String) :
    Status × JsonlEventSink :=
  (Status.ok_status,
    { s with f_ := s.f_ ++ line ++ "\n", latest_ := s.latest_ ++ line ++ "\n" })

/-- The per-run file name derived in `JsonlEventSink::open`:
`events_<wall_start_ns>.jsonl`. -/
def JsonlEventSink.events_file_name (run : RunInfoA) : String :=
  "events_" ++ toString run.wall_start_time_ns ++ ".jsonl"

/-- The `run_started` header line `JsonlEventSink::open` writes (no escaping
in this snapshot). -/
def JsonlEventSink.header_line (run : RunInfoA) : String :=
  "\x7b\"type\":\"run_started\",\"t_ns\":" ++ toString run.start_time_ns
  ++ ",\"t_s\":" ++ fixed6_seconds run.start_time_ns
  ++ ",\"t_wall_ns\":" ++ toString run.wall_start_time_ns
  ++ ",\"t_wall_s\":" ++ fixed6_seconds run.wall_start_time_ns
  ++ ",\"node_id\":\"" ++ run.node_id
  ++ "\",\"config_path\":\"" ++ run.config_path
  ++ "\",\"config_hash\":\"" ++ run.config_hash
  ++ "\",\"calibration_hash\":\"" ++ run.calibration_hash
  ++ "\"\x7d"

/-- `JsonlEventSink::open`: close any session, truncate both files, write the
header line into both (directory creation succeeds in this model). -/
def JsonlEventSink.open (s : JsonlEventSink) (run : RunInfoA) :
    Status × JsonlEventSink :=
  let s0 := JsonlEventSink.close s
  let s1 : JsonlEventSink := { s0 with
    path_ := run.out_dir ++ "/" ++ JsonlEventSink.events_file_name run,
    latest_path_ := run.out_dir ++ "/events_latest.jsonl",
    f_ := "", latest_ := "",
    open_ := true }
  let ws := s1.write_line_ (JsonlEventSink.header_line run)
  if ws.1.isOk = false then ws else (Status.ok_status, ws.2)

/-- The serialised record of `JsonlEventSink::emit` in the current snapshot:
`type` and `message` are embedded with no escaping; `message` is omitted when
empty. -/
def JsonlEventSink.emit_line (e : EventA) : String :=
  "\x7b\"type\":\"" ++ e.type
  ++ "\",\"t_ns\":" ++ toString e.t_ns
  ++ ",\"t_s\":" ++ fixed6_seconds e.t_ns
  ++ ",\"t_wall_ns\":" ++ toString e.t_wall_ns
  ++ ",\"t_wall_s\":" ++ fixed6_seconds e.t_wall_ns
  ++ (if e.message = "" then "" else ",\"message\":\"" ++ e.message ++ "\"")
  ++ "\x7d"

/-- `JsonlEventSink::emit`: precondition-checked write of one record line. -/
def JsonlEventSink.emit (s : JsonlEventSink) (e : EventA) :
    Status × JsonlEventSink :=
  if s.open_ = false then
    (Status.invalid_argument "JsonlEventSink::emit called while not open", s)
  else s.write_line_ (JsonlEventSink.emit_line e)

/-- `JsonlEventSink::flush`: success without effect when not open; with
healthy streams, flushing an open sink also succeeds without changing what
was written. -/
def JsonlEventSink.flush (s : JsonlEventSink) : Status × JsonlEventSink :=
  if s.open_ = false then (Status.ok_status, s) else (Status.ok_status, s)

/-- Scanner for one newline-delimited record: tracks whether the position is
inside a quoted string (honouring backslash escapes) and rejects any raw
newline; a line is well formed when the scan ends outside a string. -/
def scanRecordChars : List Char → Bool → Bool
  | [], inStr => !inStr
  | c :: rest, true =>
    if c = '\\' then
      match rest with
      | [] => false
      | _ :: r => scanRecordChars r true
    else if c = '"' then scanRecordChars rest false
    else if c = '\n' then false
    else scanRecordChars rest true
  | c :: rest, false =>
    if c = '"' then scanRecordChars rest true
    else if c = '\n' then false
    else scanRecordChars rest false

/-- A serialised record is one parseable line: no embedded newline and all
quotes balanced up to escapes. -/
def jsonlLineOk (line : String) : Bool := scanRecordChars line.data false

/-- Modelled from the spec: the record the spec requires `emit` to produce,
with `escape_json` (the repository's own escaping function, implemented in
the other sink snapshot) applied to every free-text field before embedding. -/
def emit_line_escaped (e : EventA) : String :=
  JsonlEventSink.emit_line
    { e with type := escape_json e.type, message := escape_json e.message }

/-- The failing event for C1: a user-supplied message holding a quote and a
newline. -/
def c1Event : EventA :=
  { type := "heartbeat", t_ns := 0, t_wall_ns := 0, message := "say \"hi\"\nbye" }

/-- C1: evaluating the current sink's `emit` serialisation at an event whose
message holds a quote and a newline shows the free-text fields are NOT
escaped: the raw quote and raw newline land in the record, which is therefore
not one parseable newline-terminated line; applying the repository's own
`escape_json` to the free-text fields (as the spec mandates and as the other
sink snapshot does) yields a well-formed single line.  This documents the
code bug behind the claim. -/
theorem emit_unescaped_message_corrupts_record :
    JsonlEventSink.emit_line c1Event
      = "\x7b\"type\":\"heartbeat\",\"t_ns\":0,\"t_s\":0.000000,\"t_wall_ns\":0,\"t_wall_s\":0.000000,\"message\":\"say \"hi\"\nbye\"\x7d"
    ∧ jsonlLineOk (JsonlEventSink.emit_line c1Event) = false
    ∧ escape_json c1Event.message = "say \\\"hi\\\"\\nbye"
    ∧ emit_line_escaped c1Event
      = "\x7b\"type\":\"heartbeat\",\"t_ns\":0,\"t_s\":0.000000,\"t_wall_ns\":0,\"t_wall_s\":0.000000,\"message\":\"say \\\"hi\\\"\\nbye\"\x7d"
    ∧ jsonlLineOk (emit_line_escaped c1Event) = true := by
  refine ⟨by decide, by decide, by decide, by decide, by decide⟩

/-- C7: on a sink that is not open, `emit` returns the precondition-violation
status and leaves the sink (hence both files) unchanged, while `flush`
returns plain success; the same holds immediately after `close`. -/
theorem emit_before_open_errors_flush_is_noop
    (s : JsonlEventSink) (e : EventA) (h : s.open_ = false) :
    s.emit e = (Status.invalid_argument "JsonlEventSink::emit called while not open", s)
    ∧ (s.emit e).1.isOk = false
    ∧ s.flush = (Status.ok_status, s)
    ∧ ((JsonlEventSink.close s).emit e).1.isOk = false
    ∧ ((JsonlEventSink.close s).emit e).2 = JsonlEventSink.close s := by
  have hc : (JsonlEventSink.close s).open_ = false := rfl
  refine ⟨?_, ?_, ?_, ?_, ?_⟩
  · simp [JsonlEventSink.emit, h]
  · simp [JsonlEventSink.emit, h, Status.isOk, Status.invalid_argument]
  · simp [JsonlEventSink.flush, h]
  · simp [JsonlEventSink.emit, hc, Status.isOk, Status.invalid_argument]
  · simp [JsonlEventSink.emit, hc]

/-- C7 witness: the theorem applied to the default (closed) sink and a
concrete event. -/
theorem emit_before_open_errors_flush_is_noop_witness :
    (({} : JsonlEventSink).open_ = false)
    ∧ (({} : JsonlEventSink).emit { type := "heartbeat" }).1.isOk = false
    ∧ ({} : JsonlEventSink).flush = (Status.ok_status, {}) :=
  ⟨rfl,
    (emit_before_open_errors_flush_is_noop {} { type := "heartbeat" } rfl).2.1,
    (emit_before_open_errors_flush_is_noop {} { type := "heartbeat" } rfl).2.2.1⟩

/-! # Reproducibility fingerprints (`src/core/util/repro_hash.cpp`)

`Fnv1a64` absorbs raw little-endian bytes (the code `memcpy`s host-endian
machine integers; the target platforms are little-endian).  Fields that are
IEEE-754 `float`/`double` values are absorbed through their bit patterns, so
this model represents such fields directly as their bit patterns (`Nat`).
Strings are absorbed as an 8-byte length prefix followed by their UTF-8
bytes.  The `H`-prefixed structures below mirror `Config` field for field in
the representation used by the hashing claims. -/

def fnvOffsetBasis : Nat := 1469598103934665603

def fnvPrime : Nat := 1099511628211

/-- One step of FNV-1a 64: xor in the byte, multiply by the prime (mod 2^64). -/
def fnvByte (h b : Nat) : Nat := ((h ^^^ b) * fnvPrime) % (2 ^ 64)

/-- `Fnv1a64::add_bytes`: absorb a byte list into the running state. -/
def fnvFold (h : Nat) (bs : List Nat) : Nat := bs.foldl fnvByte h

/-- `k` little-endian bytes of `v` (`memcpy` of a `k`-byte machine integer). -/
def leBytes : Nat → Nat → List Nat
  | 0, _ => []
  | k + 1, v => v % 256 :: leBytes k (v / 256)

def add_u64 (v : Nat) : List Nat := leBytes 8 v

def add_u32 (v : Nat) : List Nat := leBytes 4 v

def add_i64 (v : Int) : List Nat := leBytes 8 ((v % (2 ^ 64 : Int)).toNat)

def add_i32 (v : Int) : List Nat := leBytes 4 ((v % (2 ^ 32 : Int)).toNat)

def add_bool (b : Bool) : List Nat := [if b then 1 else 0]

/-- `add_float` absorbs the 4 bytes of the IEEE-754 bit pattern. -/
def add_float (bits : Nat) : List Nat := leBytes 4 bits

/-- `add_double` absorbs the 8 bytes of the IEEE-754 bit pattern. -/
def add_double (bits : Nat) : List Nat := leBytes 8 bits

/-- UTF-8 encoding of one scalar value (`std::string` holds these bytes). -/
def utf8EncodeChar (c : Char) : List Nat :=
  let n := c.toNat
  if n < 128 then [n]
  else if n < 2048 then [192 + n / 64, 128 + n % 64]
  else if n < 65536 then [224 + n / 4096, 128 + n / 64 % 64, 128 + n % 64]
  else [240 + n / 262144, 128 + n / 4096 % 64, 128 + n / 64 % 64, 128 + n % 64]

/-- The bytes of a string as `std::string` stores them. -/
def strBytes (s : String) : List Nat := s.data.flatMap utf8EncodeChar

/-- `Fnv1a64::add_string`: 8-byte length prefix, then the raw bytes. -/
def add_string (s : String) : List Nat := add_u64 (strBytes s).length ++ strBytes s

/-- A 4x4 row-major `float` matrix, by bit patterns. -/
structure TransformSE3Bits where
  m : Fin 16 → Nat

/-- `TransformSE3::identity()` (1.0f on the diagonal, 0.0f elsewhere). -/
def TransformSE3Bits.identity : TransformSE3Bits :=
  ⟨fun i => if i.val % 5 = 0 then 0x3F800000 else 0⟩

/-- `add_transform`: all 16 entries in row-major order as floats. -/
def add_transform (T : TransformSE3Bits) : List Nat :=
  (List.finRange 16).flatMap (fun i => add_float (T.m i))

/-- A `Vec3f` by bit patterns. -/
structure Vec3Bits where
  x : Nat := 0
  y : Nat := 0
  z : Nat := 0
deriving DecidableEq, Repr

def add_vec3 (v : Vec3Bits) : List Nat := add_float v.x ++ add_float v.y ++ add_float v.z

def add_aabb (mn mx : Vec3Bits) : List Nat := add_vec3 mn ++ add_vec3 mx

inductive RunMode where
  | kReplay
  | kLive
deriving DecidableEq, Repr

/-- `add_mode`: the stable small-integer mapping of the run mode. -/
def add_mode : RunMode → List Nat
  | RunMode.kReplay => add_i32 1
  | RunMode.kLive => add_i32 2

/-- `CalibrationConfig` (hash representation); defaults as in `config.hpp`. -/
structure HCalibrationConfig where
  calibration_path : String := ""
  T_node_lidar : TransformSE3Bits := TransformSE3Bits.identity
  T_site_node : TransformSE3Bits := TransformSE3Bits.identity
  calibration_version : String := "dev"

/-- The byte stream `compute_calibration_hash` absorbs (same field order as
the calibration block of `compute_config_hash`). -/
def calibrationStream (c : HCalibrationConfig) : List Nat :=
  add_string c.calibration_path ++ add_string c.calibration_version
    ++ add_transform c.T_node_lidar ++ add_transform c.T_site_node

/-- `to_hex`: low 64 bits as 16 lower-case hex characters, high nibble first. -/
def toHex16 (v : Nat) : String :=
  String.mk ((List.range 16).map (fun i => hexDigitChar (v / 16 ^ (15 - i) % 16)))

/-- `compute_calibration_hash` from `repro_hash.cpp`. -/
def compute_calibration_hash (c : HCalibrationConfig) : String :=
  toHex16 (fnvFold fnvOffsetBasis (calibrationStream c))

/-- `FramesConfig` (hash representation); defaults as in `config.hpp`. -/
structure HFramesConfig where
  lidar_frame : String := "lidar"
  node_frame : String := "node"
  site_frame : String := "site"
deriving DecidableEq, Repr

structure HBaselineConfig where
  capture_duration_ns : Int := 30000000000
  warmup_duration_ns : Int := 0
deriving DecidableEq, Repr

structure HRoiConfig where
  min : Vec3Bits := { x := 0xC1200000, y := 0xC1200000, z := 0xC0000000 }
  max : Vec3Bits := { x := 0x41200000, y := 0x41200000, z := 0x40A00000 }
deriving DecidableEq, Repr

structure HMappingConfig where
  voxel_size_m : Nat := 0x3CA3D70A
  block_size_vox : Int := 8
  roi : HRoiConfig := {}
  min_range_m : Nat := 0x3E4CCCCD
  max_range_m : Nat := 0x42480000
  use_intensity : Bool := true
  integrate_hz : Int := 10
deriving DecidableEq, Repr

structure HBudgetsConfig where
  max_points_per_sec : Int := 2000000
  target_fps : Int := 10
  downsample_voxel_m : Nat := 0x3CF5C28F
deriving DecidableEq, Repr

structure HChangeDetectionConfig where
  persistence_ns : Int := 2000000000
  min_cluster_volume_m3 : Nat := 0x3C23D70A
  min_aabb_edge_m : Nat := 0x3DCCCCCD
  min_confidence : Nat := 0x3F19999A
  prefer_site_frame : Bool := true
deriving DecidableEq, Repr

structure HReplayConfig where
  dataset_path : String := ""
  time_scale : Nat := 0
  start_offset_ns : Int := 0
  end_offset_ns : Int := 0
  loop : Bool := false
deriving DecidableEq, Repr

structure HInputSynthConfig where
  seed : Nat := 1
  num_points : Int := 1600
  enable_obstacle : Bool := true
  obstacle_start_s : Nat := 0x4020000000000000
  moving_obstacle : Bool := false
  obstacle_speed_mps : Nat := 0x3E800000
deriving DecidableEq, Repr

structure HInputFrameDirConfig where
  path : String := ""
  loop : Bool := false
  fps : Nat := 0
deriving DecidableEq, Repr

structure HInputConfig where
  type : String := "synth"
  tick_hz : Nat := 0x4024000000000000
  heartbeat_every_s : Int := 5
  max_ticks : Int := 0
  max_run_s : Nat := 0
  synth : HInputSynthConfig := {}
  frame_dir : HInputFrameDirConfig := {}
deriving DecidableEq, Repr

structure HOutputConfig where
  out_dir : String := "out"
  heartbeat_period_s : Int := 5
deriving DecidableEq, Repr

/-- `Config` (hash representation): the full tree `compute_config_hash`
absorbs. -/
structure HConfig where
  mode : RunMode := RunMode.kReplay
  node_id : String := "node_001"
  frames : HFramesConfig := {}
  calibration : HCalibrationConfig := {}
  baseline : HBaselineConfig := {}
  mapping : HMappingConfig := {}
  budgets : HBudgetsConfig := {}
  change : HChangeDetectionConfig := {}
  replay : HReplayConfig := {}
  input : HInputConfig := {}
  output : HOutputConfig := {}

/-- The bytes `compute_config_hash` absorbs before the calibration block:
mode, node id, frame names (lines 99-106 of `repro_hash.cpp`). -/
def configPre (c : HConfig) : List Nat :=
  add_mode c.mode ++ add_string c.node_id
    ++ add_string c.frames.lidar_frame ++ add_string c.frames.node_frame
    ++ add_string c.frames.site_frame

/-- The bytes `compute_config_hash` absorbs after the calibration block, in
the exact field order of lines 114-166 of `repro_hash.cpp`. -/
def configPost (c : HConfig) : List Nat :=
  add_i64 c.baseline.capture_duration_ns ++ add_i64 c.baseline.warmup_duration_ns
    ++ add_float c.mapping.voxel_size_m ++ add_i32 c.mapping.block_size_vox
    ++ add_aabb c.mapping.roi.min c.mapping.roi.max
    ++ add_float c.mapping.min_range_m ++ add_float c.mapping.max_range_m
    ++ add_bool c.mapping.use_intensity ++ add_i32 c.mapping.integrate_hz
    ++ add_i64 c.budgets.max_points_per_sec ++ add_i32 c.budgets.target_fps
    ++ add_float c.budgets.downsample_voxel_m
    ++ add_i64 c.change.persistence_ns ++ add_float c.change.min_cluster_volume_m3
    ++ add_float c.change.min_aabb_edge_m ++ add_float c.change.min_confidence
    ++ add_bool c.change.prefer_site_frame
    ++ add_string c.replay.dataset_path ++ add_double c.replay.time_scale
    ++ add_i64 c.replay.start_offset_ns ++ add_i64 c.replay.end_offset_ns
    ++ add_bool c.replay.loop
    ++ add_string c.input.type ++ add_double c.input.tick_hz
    ++ add_i32 c.input.heartbeat_every_s ++ add_i64 c.input.max_ticks
    ++ add_double c.input.max_run_s
    ++ add_u32 c.input.synth.seed ++ add_i32 c.input.synth.num_points
    ++ add_bool c.input.synth.enable_obstacle ++ add_double c.input.synth.obstacle_start_s
    ++ add_bool c.input.synth.moving_obstacle ++ add_float c.input.synth.obstacle_speed_mps
    ++ add_string c.input.frame_dir.path ++ add_bool c.input.frame_dir.loop
    ++ add_double c.input.frame_dir.fps
    ++ add_string c.output.out_dir ++ add_i32 c.output.heartbeat_period_s

/-- The full byte stream `compute_config_hash` absorbs: the calibration block
(lines 109-112) sits between `configPre` and `configPost`, in exactly the
order `compute_calibration_hash` uses. -/
def configStream (c : HConfig) : List Nat :=
  configPre c ++ calibrationStream c.calibration ++ configPost c

/-- `compute_config_hash` from `repro_hash.cpp`. -/
def compute_config_hash (c : HConfig) : String :=
  toHex16 (fnvFold fnvOffsetBasis (configStream c))

/-- Equality of every non-calibration part of two configurations. -/
def nonCalibEqual (c1 c2 : HConfig) : Prop :=
  c1.mode = c2.mode ∧ c1.node_id = c2.node_id ∧ c1.frames = c2.frames
    ∧ c1.baseline = c2.baseline ∧ c1.mapping = c2.mapping
    ∧ c1.budgets = c2.budgets ∧ c1.change = c2.change
    ∧ c1.replay = c2.replay ∧ c1.input = c2.input ∧ c1.output = c2.output

theorem leBytes_length (k v : Nat) : (leBytes k v).length = k := by
  induction k generalizing v with
  | zero => rfl
  | succ k ih => simp [leBytes, ih]

/-- Little-endian decoding inverts `leBytes` below `256 ^ k`. -/
theorem leBytes_decode (k : Nat) :
    ∀ v < 256 ^ k, Nat.ofDigits 256 (leBytes k v) = v := by
  induction k with
  | zero => intro v hv; interval_cases v; rfl
  | succ k ih =>
    intro v hv
    have hdiv : v / 256 < 256 ^ k := by
      rw [Nat.div_lt_iff_lt_mul (by norm_num)]
      calc v < 256 ^ (k + 1) := hv
        _ = 256 ^ k * 256 := by ring
    simp only [leBytes, Nat.ofDigits_cons, ih (v / 256) hdiv]
    omega

theorem leBytes_inj {k a b : Nat} (ha : a < 256 ^ k) (hb : b < 256 ^ k)
    (h : leBytes k a = leBytes k b) : a = b := by
  have := congrArg (Nat.ofDigits 256) h
  rwa [leBytes_decode k a ha, leBytes_decode k b hb] at this

/-- Concatenations of chunk lists of pointwise equal lengths are equal only
chunk by chunk. -/
theorem flatMap_chunks_inj {ι : Type*} {f g : ι → List Nat}
    (hlen : ∀ i, (f i).length = (g i).length) :
    ∀ l : List ι, l.flatMap f = l.flatMap g → ∀ i ∈ l, f i = g i := by
  intro l
  induction l with
  | nil => intro _ i hi; cases hi
  | cons a t ih =>
    intro h i hi
    rw [List.flatMap_cons, List.flatMap_cons] at h
    obtain ⟨h1, h2⟩ := List.append_inj h (hlen a)
    rcases List.mem_cons.mp hi with rfl | hi
    · exact h1
    · exact ih h2 i hi

/-- Two transforms with in-range entries and equal absorbed bytes are equal. -/
theorem add_transform_inj {T1 T2 : TransformSE3Bits}
    (h1 : ∀ i, T1.m i < 2 ^ 32) (h2 : ∀ i, T2.m i < 2 ^ 32)
    (h : add_transform T1 = add_transform T2) : T1 = T2 := by
  have hplt : (2 : Nat) ^ 32 = 256 ^ 4 := by norm_num
  have hchunks := flatMap_chunks_inj
    (f := fun i => add_float (T1.m i)) (g := fun i => add_float (T2.m i))
    (fun i => by simp [add_float, leBytes_length]) (List.finRange 16) h
  cases T1 with
  | mk m1 =>
    cases T2 with
    | mk m2 =>
      congr 1
      funext i
      have := hchunks i (List.mem_finRange i)
      exact leBytes_inj (hplt ▸ h1 i) (hplt ▸ h2 i) this

/-- Calibration is embedded in the config-hash byte stream: two configurations
that agree on every non-calibration field but absorb different calibration
bytes absorb different overall byte streams. -/
theorem configStream_calib_embedded (c1 c2 : HConfig)
    (hnc : nonCalibEqual c1 c2)
    (hcal : calibrationStream c1.calibration ≠ calibrationStream c2.calibration) :
    configStream c1 ≠ configStream c2 := by
  obtain ⟨hm, hn, hf, hb, hmap, hbud, hch, hr, hi, ho⟩ := hnc
  intro heq
  apply hcal
  have hpre : configPre c1 = configPre c2 := by
    unfold configPre
    rw [hm, hn, hf]
  have hpost : configPost c1 = configPost c2 := by
    unfold configPost
    rw [hb, hmap, hbud, hch, hr, hi, ho]
  unfold configStream at heq
  rw [hpre, hpost] at heq
  have h1 := List.append_cancel_right heq
  exact List.append_cancel_left h1

/-- Different `T_node_lidar` transforms (with everything else in the
calibration sub-tree equal and entries in 32-bit range) absorb different
calibration byte streams. -/
theorem calibrationStream_Tnl_inj (c1 c2 : HCalibrationConfig)
    (hp : c1.calibration_path = c2.calibration_path)
    (hv : c1.calibration_version = c2.calibration_version)
    (hs : c1.T_site_node = c2.T_site_node)
    (hb1 : ∀ i, c1.T_node_lidar.m i < 2 ^ 32)
    (hb2 : ∀ i, c2.T_node_lidar.m i < 2 ^ 32)
    (hT : c1.T_node_lidar ≠ c2.T_node_lidar) :
    calibrationStream c1 ≠ calibrationStream c2 := by
  intro heq
  apply hT
  unfold calibrationStream at heq
  rw [hp, hv, hs] at heq
  have h1 := List.append_cancel_right heq
  have h2 := List.append_cancel_left h1
  exact add_transform_inj hb1 hb2 h2

/-- Every FNV-1a state stays below 2^64. -/
theorem fnvFold_lt (bs : List Nat) (h : Nat) (hh : h < 2 ^ 64) :
    fnvFold h bs < 2 ^ 64 := by
  induction bs generalizing h with
  | nil => exact hh
  | cons b t ih =>
    have : fnvByte h b < 2 ^ 64 := Nat.mod_lt _ (by norm_num)
    exact ih _ this

/-- C8 counterexample: by counting, some two configurations that differ only
in the calibration transform `T_node_lidar` absorb different byte streams yet
receive the same `compute_config_hash` fingerprint (FNV-1a has only 2^64
states, the transform alone ranges over 2^512 values). -/
theorem config_hash_collision_exists :
    ∃ c1 c2 : HConfig, nonCalibEqual c1 c2 ∧ c1.calibration ≠ c2.calibration
      ∧ configStream c1 ≠ configStream c2
      ∧ compute_config_hash c1 = compute_config_hash c2 := by
  let withT : (Fin 16 → Fin (2 ^ 32)) → HConfig := fun t =>
    { ({} : HConfig) with
        calibration := { ({} : HCalibrationConfig) with T_node_lidar := ⟨fun i => (t i).val⟩ } }
  have hcard : Fintype.card (Fin (2 ^ 64)) < Fintype.card (Fin 16 → Fin (2 ^ 32)) := by
    rw [Fintype.card_fun, Fintype.card_fin, Fintype.card_fin, Fintype.card_fin]
    norm_num
  obtain ⟨t1, t2, hne, heq⟩ := Fintype.exists_ne_map_eq_of_card_lt
    (fun t : Fin 16 → Fin (2 ^ 32) =>
      (⟨fnvFold fnvOffsetBasis (configStream (withT t)),
        fnvFold_lt _ _ (by norm_num [fnvOffsetBasis])⟩ : Fin (2 ^ 64)))
    hcard
  have hTne : (⟨fun i => (t1 i).val⟩ : TransformSE3Bits) ≠ ⟨fun i => (t2 i).val⟩ := by
    intro hT
    apply hne
    funext i
    have hfun := congrArg TransformSE3Bits.m hT
    exact Fin.val_injective (congrFun hfun i)
  refine ⟨withT t1, withT t2,
    ⟨rfl, rfl, rfl, rfl, rfl, rfl, rfl, rfl, rfl, rfl⟩, ?_, ?_, ?_⟩
  · intro hceq
    exact hTne (congrArg HCalibrationConfig.T_node_lidar hceq)
  · exact configStream_calib_embedded (withT t1) (withT t2)
      ⟨rfl, rfl, rfl, rfl, rfl, rfl, rfl, rfl, rfl, rfl⟩
      (calibrationStream_Tnl_inj _ _ rfl rfl rfl
        (fun i => (t1 i).isLt) (fun i => (t2 i).isLt) hTne)
  · have hstates := congrArg Fin.val heq
    simpa [compute_config_hash] using congrArg toHex16 hstates

/-- C8 (amended): the calibration fingerprint depends only on the calibration
sub-tree, so configurations with equal calibration sub-trees fingerprint
identically regardless of any other field; and calibration is faithfully
embedded in the config-hash byte stream: with all non-calibration fields
equal, different absorbed calibration bytes (in particular any difference in
a `T_node_lidar` entry) give different absorbed config streams — although the
64-bit fingerprints themselves may still collide. -/
theorem calibration_hash_isolation :
    (∀ c1 c2 : HConfig, c1.calibration = c2.calibration →
      compute_calibration_hash c1.calibration = compute_calibration_hash c2.calibration)
    ∧ (∀ c1 c2 : HConfig, nonCalibEqual c1 c2 →
        calibrationStream c1.calibration ≠ calibrationStream c2.calibration →
        configStream c1 ≠ configStream c2)
    ∧ (∀ c1 c2 : HCalibrationConfig,
        c1.calibration_path = c2.calibration_path →
        c1.calibration_version = c2.calibration_version →
        c1.T_site_node = c2.T_site_node →
        (∀ i, c1.T_node_lidar.m i < 2 ^ 32) →
        (∀ i, c2.T_node_lidar.m i < 2 ^ 32) →
        c1.T_node_lidar ≠ c2.T_node_lidar →
        calibrationStream c1 ≠ calibrationStream c2) :=
  ⟨fun _ _ h => congrArg compute_calibration_hash h,
    configStream_calib_embedded,
    fun c1 c2 hp hv hs hb1 hb2 hT => calibrationStream_Tnl_inj c1 c2 hp hv hs hb1 hb2 hT⟩

/-- C8 witness: the theorem applied to two concrete configurations that agree
except in the calibration version. -/
theorem calibration_hash_isolation_witness :
    (calibrationStream ({} : HConfig).calibration
      ≠ calibrationStream ({ ({} : HConfig) with
          calibration := { ({} : HCalibrationConfig) with
            calibration_version := "v2" } } : HConfig).calibration)
    ∧ configStream ({} : HConfig)
      ≠ configStream ({ ({} : HConfig) with
          calibration := { ({} : HCalibrationConfig) with
            calibration_version := "v2" } } : HConfig) :=
  ⟨by decide,
    calibration_hash_isolation.2.1 {}
      { ({} : HConfig) with
        calibration := { ({} : HCalibrationConfig) with calibration_version := "v2" } }
      ⟨rfl, rfl, rfl, rfl, rfl, rfl, rfl, rfl, rfl, rfl⟩ (by decide)⟩

/-! # Run lifecycle (`src/core/model/node_runner.cpp`, both snapshots)

The two-clock snapshot's `start` prunes the output directory, captures a
monotonic origin and the wall-clock epoch time, computes both fingerprints
and opens the sink with a `RunInfo` whose logical start time is zero.  The
single-clock snapshot records one epoch `start_time` only.  Clock reads are
inputs of the model. -/

structure NodeRunner where
  cfg : HConfig
  config_path : String
  t0_wall_ns : Int := 0
  started : Bool := false

/-- The `RunInfo` built inside the two-clock `NodeRunner::start` (lines
108-118): fingerprints from the active config, logical time zero, wall time
as captured. -/
def NodeRunner.start_run_info (r : NodeRunner) (wall_now : Int) : RunInfoA :=
  { node_id := r.cfg.node_id
    config_path := r.config_path
    out_dir := r.cfg.output.out_dir
    config_hash := compute_config_hash r.cfg
    calibration_hash := compute_calibration_hash r.cfg.calibration
    start_time_ns := 0
    wall_start_time_ns := wall_now }

/-- The two-clock `NodeRunner::start`: prune at the fixed retention count 50,
mark started, and open the sink with the populated `RunInfo`. -/
def NodeRunner.start (r : NodeRunner) (dir : List DirEntry) (wall_now : Int)
    (sink : JsonlEventSink) :
    Status × NodeRunner × List DirEntry × JsonlEventSink :=
  let dir' := prune_out_dir 50 dir
  let r' := { r with t0_wall_ns := wall_now, started := true }
  let os := sink.open (r.start_run_info wall_now)
  (os.1, r', dir', os.2)

/-- `RunInfo` of the single-clock snapshot
(`include/wm/core/events/event_sink.hpp`, first variant): one `start_time`. -/
structure RunInfoB where
  node_id : String := ""
  config_path : String := ""
  out_dir : String := ""
  config_hash : String := ""
  calibration_hash : String := ""
  start_time : Int := 0
deriving DecidableEq, Repr

/-- The `RunInfo` built by the single-clock `NodeRunner::start` (lines
175-190): its only start-time field is the epoch time captured at start. -/
def NodeRunnerB.start_run_info (cfg : HConfig) (config_path : String)
    (now_epoch : Int) : RunInfoB :=
  { node_id := cfg.node_id
    config_path := config_path
    out_dir := cfg.output.out_dir
    config_hash := compute_config_hash cfg
    calibration_hash := compute_calibration_hash cfg.calibration
    start_time := now_epoch }

/-- The per-run file name derived by the escaping sink snapshot's `open`:
it embeds `run.start_time` (the epoch value). -/
def JsonlEventSinkB.events_file_name (run : RunInfoB) : String :=
  "events_" ++ toString run.start_time ++ ".jsonl"

/-- The `run_started` header line the escaping sink snapshot's `open` writes;
its logical-time field `t_ns` is `run.start_time`. -/
def JsonlEventSinkB.header_line (run : RunInfoB) : String :=
  "\x7b\"type\":\"run_started\",\"t_ns\":" ++ toString run.start_time
  ++ ",\"t_s\":" ++ fixed6_seconds run.start_time
  ++ ",\"node_id\":\"" ++ escape_json run.node_id
  ++ "\",\"config_path\":\"" ++ escape_json run.config_path
  ++ "\",\"config_hash\":\"" ++ escape_json run.config_hash
  ++ "\",\"calibration_hash\":\"" ++ escape_json run.calibration_hash
  ++ "\"\x7d"

/-- C4 counterexample: under the single-clock snapshot, at the concrete epoch
time 1024 ns the `RunInfo` produced by `start` carries 1024 — not zero — as
its only start-time field, and the sink writes that epoch value as the
record's logical-time field `t_ns`; so this variant's runs have no zero
logical start time. -/
theorem runinfo_single_clock_start_is_epoch :
    (NodeRunnerB.start_run_info {} "cfg.yaml" 1024).start_time = 1024
    ∧ (NodeRunnerB.start_run_info {} "cfg.yaml" 1024).start_time ≠ 0
    ∧ JsonlEventSinkB.events_file_name (NodeRunnerB.start_run_info {} "cfg.yaml" 1024)
      = "events_1024.jsonl"
    ∧ JsonlEventSinkB.header_line (NodeRunnerB.start_run_info {} "cfg.yaml" 1024)
      = "\x7b\"type\":\"run_started\",\"t_ns\":1024,\"t_s\":0.000001,\"node_id\":\"node_001\",\"config_path\":\"cfg.yaml\",\"config_hash\":\"95b2dbb50de6849b\",\"calibration_hash\":\"28b1f7302f001e47\"\x7d" := by
  refine ⟨by decide, by decide, by decide, by decide⟩

/-- C4 (amended): the two-clock runner's `start` produces a `RunInfo` whose
logical start time is zero and whose wall-clock start time is the epoch value
captured at start; the sink consumes it by naming the run file after the wall
time and writing the zero logical time into the header.  The single-clock
snapshot instead has a single `start_time` field holding the epoch value — no
zero logical start time exists in that variant. -/
theorem runinfo_start_time_contract (cfg : HConfig) (path : String) (now : Int) :
    (NodeRunner.start_run_info { cfg := cfg, config_path := path } now).start_time_ns = 0
    ∧ (NodeRunner.start_run_info { cfg := cfg, config_path := path } now).wall_start_time_ns
      = now
    ∧ JsonlEventSink.events_file_name
        (NodeRunner.start_run_info { cfg := cfg, config_path := path } now)
      = "events_" ++ toString now ++ ".jsonl"
    ∧ JsonlEventSink.header_line
        (NodeRunner.start_run_info { cfg := cfg, config_path := path } now)
      = "\x7b\"type\":\"run_started\",\"t_ns\":0,\"t_s\":0.000000,\"t_wall_ns\":"
        ++ toString now ++ ",\"t_wall_s\":" ++ fixed6_seconds now
        ++ ",\"node_id\":\"" ++ cfg.node_id
        ++ "\",\"config_path\":\"" ++ path
        ++ "\",\"config_hash\":\"" ++ compute_config_hash cfg
        ++ "\",\"calibration_hash\":\"" ++ compute_calibration_hash cfg.calibration
        ++ "\"\x7d"
    ∧ (NodeRunnerB.start_run_info cfg path now).start_time = now := by
  refine ⟨rfl, rfl, rfl, ?_, rfl⟩
  simp [JsonlEventSink.header_line, NodeRunner.start_run_info]
  rfl

/-! # Directory-backed frame source (`src/adapters/frame_dir/frame_dir_source.cpp`)

The current snapshot lists one directory at `open`, filters to regular
`.bin` files, sorts the file names (`std::sort` with `operator<` on
`std::string`, plain byte-wise comparison — on these names identical to the
order on the scalar lists) and serves them in that order with a cursor.
Files are flat arrays of 4 little-endian 32-bit floats per point; the model
keeps the 32-bit patterns.  The other snapshot (`src/unnamed/part_001`)
addresses frames by the synthetic name `<idx padded to 6>.bin` instead of a
file list and packs 3 floats per point.  A file store maps file names to
byte contents; `frame_period_ns` is carried as a value (the C++ derives it
from the configured fps through double arithmetic, which no claim relies
on). -/

/-- Byte-wise lexicographic `operator<` of `std::string`. -/
def charListLt : List Char → List Char → Bool
  | [], [] => false
  | [], _ :: _ => true
  | _ :: _, [] => false
  | a :: as, b :: bs => if a < b then true else if b < a then false else charListLt as bs

def nameLe (a b : String) : Prop := charListLt b.data a.data = false

instance : DecidableRel nameLe := fun _ _ => inferInstanceAs (Decidable (_ = false))

theorem charListLt_irrefl : ∀ x : List Char, charListLt x x = false
  | [] => rfl
  | a :: as => by simp [charListLt, charListLt_irrefl as]

theorem charListLt_trichotomy : ∀ x y : List Char,
    charListLt x y = true ∨ charListLt y x = true ∨ x = y
  | [], [] => Or.inr (Or.inr rfl)
  | [], _ :: _ => Or.inl rfl
  | _ :: _, [] => Or.inr (Or.inl rfl)
  | a :: as, b :: bs => by
    rcases lt_trichotomy a b with h | h | h
    · exact Or.inl (by simp [charListLt, h])
    · subst h
      rcases charListLt_trichotomy as bs with h2 | h2 | h2
      · exact Or.inl (by simp [charListLt, h2])
      · exact Or.inr (Or.inl (by simp [charListLt, h2]))
      · exact Or.inr (Or.inr (by rw [h2]))
    · exact Or.inr (Or.inl (by simp [charListLt, h, not_lt_of_gt h]))

theorem charListLt_asymm : ∀ x y : List Char,
    charListLt x y = true → charListLt y x = false
  | [], [] => fun h => by simp [charListLt] at h
  | [], _ :: _ => fun _ => rfl
  | _ :: _, [] => fun h => by simp [charListLt] at h
  | a :: as, b :: bs => fun h => by
    rcases lt_trichotomy a b with hab | hab | hab
    · simp [charListLt, hab, not_lt_of_gt hab]
    · subst hab
      simp only [charListLt, lt_irrefl, if_false] at h ⊢
      exact charListLt_asymm as bs h
    · simp [charListLt, hab, not_lt_of_gt hab] at h

theorem charListLt_nil_right : ∀ x : List Char, charListLt x [] = false
  | [] => rfl
  | _ :: _ => rfl

theorem charListLt_trans : ∀ x y z : List Char,
    charListLt x y = true → charListLt y z = true → charListLt x z = true
  | _, y, [] => fun _ h2 => by rw [charListLt_nil_right y] at h2; cases h2
  | [], _, _ :: _ => fun _ _ => rfl
  | _ :: _, [], _ :: _ => fun h1 _ => by simp [charListLt] at h1
  | a :: as, b :: bs, c :: cs => fun h1 h2 => by
    rcases lt_trichotomy a b with hab | hab | hab
    · rcases lt_trichotomy b c with hbc | hbc | hbc
      · simp [charListLt, lt_trans hab hbc]
      · subst hbc; simp [charListLt, hab]
      · simp [charListLt, hbc, not_lt_of_gt hbc] at h2
    · subst hab
      simp only [charListLt, lt_irrefl, if_false] at h1
      rcases lt_trichotomy a c with hac | hac | hac
      · simp [charListLt, hac]
      · subst hac
        simp only [charListLt, lt_irrefl, if_false] at h2 ⊢
        exact charListLt_trans as bs cs h1 h2
      · simp [charListLt, hac, not_lt_of_gt hac] at h2
    · simp [charListLt, hab, not_lt_of_gt hab] at h1

instance : IsTotal String nameLe := by
  constructor
  intro a b
  rcases charListLt_trichotomy a.data b.data with h | h | h
  · exact Or.inl (charListLt_asymm _ _ h)
  · exact Or.inr (charListLt_asymm _ _ h)
  · refine Or.inl ?_
    show charListLt b.data a.data = false
    rw [← h]
    exact charListLt_irrefl _

instance : IsTrans String nameLe := by
  constructor
  intro a b c h1 h2
  have h1' : charListLt b.data a.data = false := h1
  have h2' : charListLt c.data b.data = false := h2
  show charListLt c.data a.data = false
  by_contra hc
  have hca : charListLt c.data a.data = true := by
    cases hx : charListLt c.data a.data
    · exact absurd hx hc
    · rfl
  rcases charListLt_trichotomy b.data c.data with h | h | h
  · have hba := charListLt_trans b.data c.data a.data h hca
    rw [hba] at h1'
    cases h1'
  · rw [h] at h2'
    cases h2'
  · rw [← h] at hca
    rw [hca] at h1'
    cases h1'

instance : IsAntisymm String nameLe := by
  constructor
  intro a b h1 h2
  have h1' : charListLt b.data a.data = false := h1
  have h2' : charListLt a.data b.data = false := h2
  rcases charListLt_trichotomy a.data b.data with h | h | h
  · rw [h] at h2'; cases h2'
  · rw [h] at h1'; cases h1'
  · cases a; cases b; exact congrArg String.mk h

/-- `std::filesystem::path::extension() == ".bin"`: the name ends in `.bin`
and is not the bare dot-file `.bin`. -/
def hasBinExt (name : String) : Bool :=
  decide (4 ≤ name.data.length)
    && decide (name.data.drop (name.data.length - 4) = ".bin".data)
    && !decide (name.data = ".bin".data)

structure Frame where
  t_ns : Int := 0
  frame_id : String := ""
  points : List (Nat × Nat × Nat × Nat) := []
deriving DecidableEq, Repr

/-- Group the raw bytes into little-endian 32-bit words (the floats' bit
patterns), as the buffer of `float`s read from the file. -/
def bytesToWords : List Nat → List Nat
  | b0 :: b1 :: b2 :: b3 :: rest =>
    (b0 + 256 * (b1 + 256 * (b2 + 256 * b3))) :: bytesToWords rest
  | _ => []
termination_by structural bs => bs

/-- Group the words 4 per point: x, y, z, intensity. -/
def wordsToPoints : List Nat → List (Nat × Nat × Nat × Nat)
  | x :: y :: z :: i :: rest => (x, y, z, i) :: wordsToPoints rest
  | _ => []
termination_by structural ws => ws

/-- Group the words 3 per point, intensity defaulted to `0.f` (bit pattern
0), as the 3-float snapshot does. -/
def words3ToPoints : List Nat → List (Nat × Nat × Nat × Nat)
  | x :: y :: z :: rest => (x, y, z, 0) :: words3ToPoints rest
  | _ => []
termination_by structural ws => ws

/-- State of the current `FrameDirSource`: configured looping flag, open
flag, the sorted file list (the C++ keeps names and full paths, both derived
from the same sorted entries), cursor and emission counter. -/
structure FrameDirSource where
  loop : Bool := false
  opened : Bool := false
  files : List String := []
  idx : Nat := 0
  emitted : Int := 0
  frame_period_ns : Int := 100000000
deriving DecidableEq, Repr

/-- `FrameDirSource::load_file_list`: filter the listing to regular `.bin`
files, sort by file name, fail with `not_found` when nothing matched (the
directory itself exists in this model; its listing is the input). -/
def load_file_list (path : String) (listing : List DirEntry) :
    Except Status (List String) :=
  let entries := (listing.filter (fun e => e.2 && hasBinExt e.1)).map Prod.fst
  let sorted := List.insertionSort nameLe entries
  if sorted.isEmpty then
    Except.error (Status.not_found ("FrameDirSource: no .bin files found in " ++ path))
  else Except.ok sorted

/-- `FrameDirSource::open`. -/
def FrameDirSource.open (loop : Bool) (period : Int) (path : String)
    (listing : List DirEntry) : Except Status FrameDirSource :=
  if path = "" then
    Except.error (Status.invalid_argument "FrameDirSource: path is empty")
  else
    match load_file_list path listing with
    | Except.error st => Except.error st
    | Except.ok files =>
      Except.ok { loop := loop, opened := true, files := files, idx := 0, emitted := 0, frame_period_ns := period }

/-- `FrameDirSource::read_frame`: missing file is an `io_error`; a byte count
of zero, or one that is not a multiple of the 16-byte point stride, is
`corrupt_data` (`nbytes <= 0 || nbytes % stride != 0`); otherwise the points
are the 4-word groups. -/
def FrameDirSource.read_frame (content : Option (List Nat)) (frame_id : String) :
    Except Status Frame :=
  match content with
  | none => Except.error (Status.io_error "FrameDirSource: failed to open frame file")
  | some bytes =>
    if bytes.length = 0 ∨ bytes.length % 16 ≠ 0 then
      Except.error (Status.corrupt_data
        "FrameDirSource: frame file size not multiple of 4*float")
    else
      Except.ok { t_ns := 0, frame_id := frame_id, points := wordsToPoints (bytesToWords bytes) }

/-- The tail of `FrameDirSource::next` after the cursor checks: read the file
at the cursor, stamp the frame with `emitted_ * frame_period_ns_`, advance
cursor and counter; on a read error the cursor is not advanced. -/
def FrameDirSource.nextRead (fs : String → Option (List Nat))
    (s : FrameDirSource) : (Except Status Frame) × FrameDirSource :=
  let name := s.files.getD s.idx ""
  match FrameDirSource.read_frame (fs name) name with
  | Except.error st => (Except.error st, s)
  | Except.ok f =>
    (Except.ok { f with t_ns := s.emitted * s.frame_period_ns },
      { s with idx := s.idx + 1, emitted := s.emitted + 1 })

/-- `FrameDirSource::next`: not-opened is `invalid_argument`; an empty list
is end-of-stream; a cursor past the end is end-of-stream unless looping, in
which case the cursor wraps to zero before reading. -/
def FrameDirSource.next (fs : String → Option (List Nat))
    (s : FrameDirSource) : (Except Status Frame) × FrameDirSource :=
  if s.opened = false then
    (Except.error (Status.invalid_argument "FrameDirSource::next: not opened"), s)
  else if s.files.isEmpty then
    (Except.error (Status.out_of_range "eof"), s)
  else if s.files.length ≤ s.idx then
    if s.loop = false then (Except.error (Status.out_of_range "eof"), s)
    else FrameDirSource.nextRead fs { s with idx := 0 }
  else FrameDirSource.nextRead fs s

/-- `k + 1` successive calls of `next`, threading the state; returns the last
outcome and the final state. -/
def FrameDirSource.next_iter (fs : String → Option (List Nat))
    (s : FrameDirSource) : Nat → (Except Status Frame) × FrameDirSource
  | 0 => FrameDirSource.next fs s
  | k + 1 => FrameDirSource.next fs (FrameDirSource.next_iter fs s k).2

/-- State of the index-by-filename snapshot (`src/unnamed/part_001`). -/
structure FrameDirSource2 where
  opened : Bool := false
  idx : Nat := 0
  timestamps_ns : List Int := []
  fallback_period_ns : Int := 100000000
deriving DecidableEq, Repr

/-- `FrameDirSource::frame_filename`: the index zero-padded to width 6 plus
`.bin`. -/
def frame_filename (idx : Nat) : String := padZeros 6 (toString idx) ++ ".bin"

/-- `next` of the index-by-filename snapshot: a missing frame file is the
end-of-stream outcome; sizes are validated against the 12-byte (3-float)
stride; timestamps come from the sidecar list or the fallback rate. -/
def FrameDirSource2.next (fs : String → Option (List Nat))
    (s : FrameDirSource2) : Status × Option Frame × FrameDirSource2 :=
  if s.opened = false then
    (Status.invalid_argument "FrameDirSource::next: not opened", none, s)
  else
    match fs (frame_filename s.idx) with
    | none => (Status.out_of_range "eof", none, s)
    | some bytes =>
      if bytes.length = 0 ∨ bytes.length % 12 ≠ 0 then
        (Status.corrupt_data "FrameDirSource: frame file size not multiple of 3*float",
          none, s)
      else
        let t := if s.idx < s.timestamps_ns.length
          then s.timestamps_ns.getD s.idx 0
          else (s.idx : Int) * s.fallback_period_ns
        (Status.ok_status,
          some { t_ns := t, frame_id := frame_filename s.idx, points := words3ToPoints (bytesToWords bytes) },
          { s with idx := s.idx + 1 })

/-- C5: once a non-looping source has exhausted its file list, `next` yields
the end-of-stream outcome `out_of_range "eof"` on this call and on every
subsequent call, never another error kind, and the cursor state is unchanged
each time; the index-by-filename snapshot behaves the same when the file at
its cursor does not exist. -/
theorem next_after_exhaustion_is_eof
    (fs : String → Option (List Nat)) (s : FrameDirSource)
    (hop : s.opened = true) (hloop : s.loop = false)
    (hend : s.files.length ≤ s.idx) :
    (∀ k, FrameDirSource.next_iter fs s k
      = (Except.error (Status.out_of_range "eof"), s))
    ∧ (∀ (fs2 : String → Option (List Nat)) (s2 : FrameDirSource2),
        s2.opened = true → fs2 (frame_filename s2.idx) = none →
        FrameDirSource2.next fs2 s2 = (Status.out_of_range "eof", none, s2)) := by
  have hbase : FrameDirSource.next fs s
      = (Except.error (Status.out_of_range "eof"), s) := by
    by_cases hemp : s.files.isEmpty
    · simp [FrameDirSource.next, hop, hemp]
    · simp [FrameDirSource.next, hop, hemp, hend, hloop]
  refine ⟨?_, ?_⟩
  · intro k
    induction k with
    | zero => exact hbase
    | succ k ih =>
      show FrameDirSource.next fs (FrameDirSource.next_iter fs s k).2 = _
      rw [ih]
      exact hbase
  · intro fs2 s2 hop2 hmiss
    simp [FrameDirSource2.next, hop2, hmiss]

/-- C5 witness: a concrete opened, non-looping, exhausted source; the theorem
applies and the first two repeated calls both return end-of-stream with the
state unchanged. -/
theorem next_after_exhaustion_is_eof_witness :
    (({ opened := true, loop := false, files := ["000000.bin"], idx := 1 }
        : FrameDirSource).opened = true)
    ∧ FrameDirSource.next_iter (fun _ => none)
        { opened := true, loop := false, files := ["000000.bin"], idx := 1 } 0
      = (Except.error (Status.out_of_range "eof"),
          { opened := true, loop := false, files := ["000000.bin"], idx := 1 })
    ∧ FrameDirSource.next_iter (fun _ => none)
        { opened := true, loop := false, files := ["000000.bin"], idx := 1 } 1
      = (Except.error (Status.out_of_range "eof"),
          { opened := true, loop := false, files := ["000000.bin"], idx := 1 }) :=
  ⟨rfl,
    (next_after_exhaustion_is_eof (fun _ => none)
      { opened := true, loop := false, files := ["000000.bin"], idx := 1 }
      rfl rfl (by decide)).1 0,
    (next_after_exhaustion_is_eof (fun _ => none)
      { opened := true, loop := false, files := ["000000.bin"], idx := 1 }
      rfl rfl (by decide)).1 1⟩

/-- Concrete file store for the ordering example: every file holds one
16-byte point record. -/
def c6Fs : String → Option (List Nat) := fun _ => some (List.replicate 16 0)

/-- Concrete opened source over the example files, in sorted order. -/
def c6State : FrameDirSource :=
  { opened := true, loop := false, files := ["000000.bin", "000001.bin", "000002.bin"] }

/-- C6: `load_file_list` selects exactly the regular files with the `.bin`
extension and orders them by byte-wise lexicographic file-name comparison —
for every filesystem listing order, since a permuted listing loads to the
identical result; successive `next` calls return the frames in exactly that
order (the cursor advances one sorted name per successful call); and on the
spec's example `000002.bin, 000000.bin, 000001.bin` the frames come back as
`000000.bin, 000001.bin, 000002.bin`. -/
theorem frame_dir_playback_order (path : String) :
    (∀ listing files, load_file_list path listing = Except.ok files →
      files.Sorted nameLe
      ∧ files.Perm ((listing.filter (fun e => e.2 && hasBinExt e.1)).map Prod.fst))
    ∧ (∀ listing listing', listing.Perm listing' →
        load_file_list path listing = load_file_list path listing')
    ∧ (∀ (fs : String → Option (List Nat)) (s : FrameDirSource),
        s.opened = true → s.idx < s.files.length →
        ∀ bytes, fs (s.files.getD s.idx "") = some bytes →
        bytes.length ≠ 0 → bytes.length % 16 = 0 →
        FrameDirSource.next fs s
          = (Except.ok { t_ns := s.emitted * s.frame_period_ns, frame_id := s.files.getD s.idx "", points := wordsToPoints (bytesToWords bytes) },
            { s with idx := s.idx + 1, emitted := s.emitted + 1 }))
    ∧ (load_file_list path [("000002.bin", true), ("000000.bin", true), ("000001.bin", true)]
        = Except.ok ["000000.bin", "000001.bin", "000002.bin"])
    ∧ ((FrameDirSource.next_iter c6Fs c6State 0).1.toOption.map Frame.frame_id
        = some "000000.bin"
      ∧ (FrameDirSource.next_iter c6Fs c6State 1).1.toOption.map Frame.frame_id
        = some "000001.bin"
      ∧ (FrameDirSource.next_iter c6Fs c6State 2).1.toOption.map Frame.frame_id
        = some "000002.bin") := by
  refine ⟨?_, ?_, ?_, rfl, by decide, by decide, by decide⟩
  · intro listing files hok
    simp only [load_file_list] at hok
    split_ifs at hok with hemp
    · injection hok with h
      subst h
      exact ⟨List.sorted_insertionSort _ _, List.perm_insertionSort _ _⟩
  · intro listing listing' hperm
    have hp2 : ((listing.filter (fun e => e.2 && hasBinExt e.1)).map Prod.fst).Perm
        ((listing'.filter (fun e => e.2 && hasBinExt e.1)).map Prod.fst) :=
      (hperm.filter _).map _
    have hsorteq : List.insertionSort nameLe
          ((listing.filter (fun e => e.2 && hasBinExt e.1)).map Prod.fst)
        = List.insertionSort nameLe
          ((listing'.filter (fun e => e.2 && hasBinExt e.1)).map Prod.fst) :=
      List.eq_of_perm_of_sorted
        ((List.perm_insertionSort _ _).trans (hp2.trans (List.perm_insertionSort _ _).symm))
        (List.sorted_insertionSort _ _) (List.sorted_insertionSort _ _)
    simp only [load_file_list]
    rw [hsorteq]
  · intro fs s hop hidx bytes hfs hne hmod
    have hnonempty : ¬ (s.files.isEmpty = true) := by
      cases hfe : s.files.isEmpty
      · simp
      · rw [List.isEmpty_iff] at hfe
        rw [hfe] at hidx
        simp at hidx
    have hnle : ¬ s.files.length ≤ s.idx := Nat.not_le.mpr hidx
    rw [FrameDirSource.next, if_neg (by simp [hop]), if_neg hnonempty, if_neg hnle]
    simp only [FrameDirSource.nextRead, FrameDirSource.read_frame, hfs]
    rw [if_neg (by push_neg; exact ⟨hne, hmod⟩)]

/-- C6 witness: the theorem applied to the example listing, whose load
produces the sorted file list. -/
theorem frame_dir_playback_order_witness :
    (load_file_list "frames" [("000002.bin", true), ("000000.bin", true), ("000001.bin", true)]
      = Except.ok ["000000.bin", "000001.bin", "000002.bin"])
    ∧ (["000000.bin", "000001.bin", "000002.bin"] : List String).Sorted nameLe :=
  ⟨rfl,
    ((frame_dir_playback_order "frames").1
      [("000002.bin", true), ("000000.bin", true), ("000001.bin", true)]
      ["000000.bin", "000001.bin", "000002.bin"] rfl).1⟩

theorem bytesToWords_length : ∀ bs : List Nat, (bytesToWords bs).length = bs.length / 4
  | [] => by simp [bytesToWords]
  | [_] => by simp [bytesToWords]
  | [_, _] => by simp [bytesToWords]
  | [_, _, _] => by simp [bytesToWords]
  | _ :: _ :: _ :: _ :: rest => by
    have ih := bytesToWords_length rest
    simp only [bytesToWords, List.length_cons, ih]
    omega

theorem wordsToPoints_length : ∀ ws : List Nat, (wordsToPoints ws).length = ws.length / 4
  | [] => by simp [wordsToPoints]
  | [_] => by simp [wordsToPoints]
  | [_, _] => by simp [wordsToPoints]
  | [_, _, _] => by simp [wordsToPoints]
  | _ :: _ :: _ :: _ :: rest => by
    have ih := wordsToPoints_length rest
    simp only [wordsToPoints, List.length_cons, ih]
    omega

/-- A successful `read_frame` always carries at least one point: the size
check rejects the empty file, so a passing file holds ≥ 16 bytes = 1 point. -/
theorem read_frame_ok_has_point (content : Option (List Nat)) (id : String) (f : Frame)
    (h : FrameDirSource.read_frame content id = Except.ok f) : 1 ≤ f.points.length := by
  match content with
  | none => simp [FrameDirSource.read_frame] at h
  | some bytes =>
    simp only [FrameDirSource.read_frame] at h
    split_ifs at h with hc
    push_neg at hc
    obtain ⟨h0, h16⟩ := hc
    cases h
    show 1 ≤ (wordsToPoints (bytesToWords bytes)).length
    simp only [wordsToPoints_length, bytesToWords_length, Nat.div_div_eq_div_mul]
    omega

theorem nextRead_ok_has_point (fs : String → Option (List Nat)) (s : FrameDirSource)
    (f : Frame) (s' : FrameDirSource)
    (h : FrameDirSource.nextRead fs s = (Except.ok f, s')) : 1 ≤ f.points.length := by
  simp only [FrameDirSource.nextRead] at h
  cases hread : FrameDirSource.read_frame (fs (s.files.getD s.idx ""))
      (s.files.getD s.idx "") with
  | error st =>
    rw [hread] at h
    injection h with h1 _
    cases h1
  | ok f0 =>
    rw [hread] at h
    injection h with h1 _
    injection h1 with h3
    rw [← h3]
    exact read_frame_ok_has_point _ _ f0 hread

/-- C10: a zero-byte frame file draws the same `corrupt_data` outcome as a
size that is not a multiple of the 16-byte point stride (`nbytes <= 0` is
checked together with the stride divisibility), so a successfully returned
frame always contains at least one point; the 3-float snapshot rejects the
empty file identically against its 12-byte stride. -/
theorem zero_size_frame_is_corrupt :
    (∀ id, FrameDirSource.read_frame (some []) id
      = Except.error (Status.corrupt_data
          "FrameDirSource: frame file size not multiple of 4*float"))
    ∧ (∀ id bytes, bytes.length % 16 ≠ 0 → FrameDirSource.read_frame (some bytes) id
      = Except.error (Status.corrupt_data
          "FrameDirSource: frame file size not multiple of 4*float"))
    ∧ (∀ (fs : String → Option (List Nat)) (s : FrameDirSource) (f : Frame)
        (s' : FrameDirSource),
        FrameDirSource.next fs s = (Except.ok f, s') → 1 ≤ f.points.length)
    ∧ (∀ (fs2 : String → Option (List Nat)) (s2 : FrameDirSource2),
        s2.opened = true → fs2 (frame_filename s2.idx) = some [] →
        FrameDirSource2.next fs2 s2
          = (Status.corrupt_data "FrameDirSource: frame file size not multiple of 3*float",
            none, s2)) := by
  refine ⟨?_, ?_, ?_, ?_⟩
  · intro id
    simp [FrameDirSource.read_frame]
  · intro id bytes hmod
    simp only [FrameDirSource.read_frame]
    rw [if_pos (Or.inr hmod)]
  · intro fs s f s' h
    unfold FrameDirSource.next at h
    split_ifs at h with h1 h2 h3 h4
    all_goals
      first
        | (injection h with ha hb; cases ha)
        | exact nextRead_ok_has_point _ _ _ _ h
  · intro fs2 s2 hop2 hmiss
    simp [FrameDirSource2.next, hop2, hmiss]

/-- C10 witness: a successful `next` on a one-point file, with the theorem
applied to it. -/
theorem zero_size_frame_is_corrupt_witness :
    FrameDirSource.next c6Fs c6State
      = (Except.ok { t_ns := 0, frame_id := "000000.bin", points := [(0, 0, 0, 0)] },
        { c6State with idx := 1, emitted := 1 })
    ∧ 1 ≤ ({ t_ns := 0, frame_id := "000000.bin", points := [(0, 0, 0, 0)] } : Frame).points.length :=
  ⟨by rfl,
    zero_size_frame_is_corrupt.2.2.1 c6Fs c6State
      { t_ns := 0, frame_id := "000000.bin", points := [(0, 0, 0, 0)] }
      { c6State with idx := 1, emitted := 1 } (by rfl)⟩

/-! # Configuration validation (`include/wm/core/config.hpp`) and the CLI
override flow (`src/unnamed/part_000`)

`validate_config` only performs order comparisons on its `float`/`double`
fields, so those fields are modelled as exact rationals (written in reduced
`Rat.mk'` form so that the kernel can evaluate comparisons); the defaults are
the exact decimal values written in `config.hpp`, whose comparisons against
the checked thresholds agree with the IEEE ones. -/

structure Vec3f where
  x : ℚ := 0
  y : ℚ := 0
  z : ℚ := 0
deriving DecidableEq, Repr

structure AABB where
  min : Vec3f
  max : Vec3f
deriving DecidableEq, Repr

/-- `AABB::is_valid`: componentwise `min <= max`. -/
def AABB.is_valid (a : AABB) : Bool :=
  decide (a.min.x ≤ a.max.x) && decide (a.min.y ≤ a.max.y) && decide (a.min.z ≤ a.max.z)

structure FramesConfig where
  lidar_frame : String := "lidar"
  node_frame : String := "node"
  site_frame : String := "site"
deriving DecidableEq, Repr

structure BaselineConfig where
  capture_duration_ns : Int := 30000000000
  warmup_duration_ns : Int := 0
deriving DecidableEq, Repr

structure RoiConfig where
  min : Vec3f := { x := -10, y := -10, z := -2 }
  max : Vec3f := { x := 10, y := 10, z := 5 }
deriving DecidableEq, Repr

structure MappingConfig where
  voxel_size_m : ℚ := Rat.mk' 1 50 (by decide) (by decide)
  block_size_vox : Int := 8
  roi : RoiConfig := {}
  min_range_m : ℚ := Rat.mk' 1 5 (by decide) (by decide)
  max_range_m : ℚ := 50
  use_intensity : Bool := true
  integrate_hz : Int := 10
deriving DecidableEq, Repr

structure BudgetsConfig where
  max_points_per_sec : Int := 2000000
  target_fps : Int := 10
  downsample_voxel_m : ℚ := Rat.mk' 3 100 (by decide) (by decide)
deriving DecidableEq, Repr

structure ChangeDetectionConfig where
  persistence_ns : Int := 2000000000
  min_cluster_volume_m3 : ℚ := Rat.mk' 1 100 (by decide) (by decide)
  min_aabb_edge_m : ℚ := Rat.mk' 1 10 (by decide) (by decide)
  min_confidence : ℚ := Rat.mk' 3 5 (by decide) (by decide)
  prefer_site_frame : Bool := true
deriving DecidableEq, Repr

structure ReplayConfig where
  dataset_path : String := ""
  time_scale : ℚ := 0
  start_offset_ns : Int := 0
  end_offset_ns : Int := 0
  loop : Bool := false
deriving DecidableEq, Repr

structure InputSynthConfig where
  seed : Nat := 1
  num_points : Int := 1600
  enable_obstacle : Bool := true
  obstacle_start_s : ℚ := 8
  moving_obstacle : Bool := false
  obstacle_speed_mps : ℚ := Rat.mk' 1 4 (by decide) (by decide)
deriving DecidableEq, Repr

structure InputFrameDirConfig where
  path : String := ""
  loop : Bool := false
  fps : ℚ := 0
deriving DecidableEq, Repr

structure InputConfig where
  type : String := "synth"
  tick_hz : ℚ := 10
  heartbeat_every_s : Int := 5
  max_ticks : Int := 0
  max_run_s : ℚ := 0
  synth : InputSynthConfig := {}
  frame_dir : InputFrameDirConfig := {}
deriving DecidableEq, Repr

structure OutputConfig where
  out_dir : String := "out"
  heartbeat_period_s : Int := 5
deriving DecidableEq, Repr

/-- `Config` (validation representation); the calibration sub-tree, which
`validate_config` never reads, is shared with the hash model. -/
structure Config where
  mode : RunMode := RunMode.kReplay
  node_id : String := "node_001"
  frames : FramesConfig := {}
  calibration : HCalibrationConfig := {}
  baseline : BaselineConfig := {}
  mapping : MappingConfig := {}
  budgets : BudgetsConfig := {}
  change : ChangeDetectionConfig := {}
  replay : ReplayConfig := {}
  input : InputConfig := {}
  output : OutputConfig := {}

/-- `validate_config` from `config.hpp`, check for check in source order. -/
def validate_config (cfg : Config) : Status :=
  if cfg.node_id = "" then
    Status.invalid_argument "node_id must not be empty"
  else if cfg.mapping.voxel_size_m ≤ 0 then
    Status.invalid_argument "mapping.voxel_size_m must be > 0"
  else if cfg.mapping.block_size_vox ≤ 0 then
    Status.invalid_argument "mapping.block_size_vox must be > 0"
  else if (AABB.mk cfg.mapping.roi.min cfg.mapping.roi.max).is_valid = false then
    Status.invalid_argument "mapping.roi must be a valid AABB (min <= max)"
  else if cfg.change.persistence_ns < 0 then
    Status.invalid_argument "change.persistence_ns must be >= 0"
  else if cfg.budgets.max_points_per_sec ≤ 0 then
    Status.invalid_argument "budgets.max_points_per_sec must be > 0"
  else if cfg.budgets.target_fps ≤ 0 then
    Status.invalid_argument "budgets.target_fps must be > 0"
  else if cfg.output.out_dir = "" then
    Status.invalid_argument "output.out_dir must not be empty"
  else if cfg.input.tick_hz ≤ 0 then
    Status.invalid_argument "input.tick_hz must be > 0"
  else if cfg.input.heartbeat_every_s < 0 then
    Status.invalid_argument "input.heartbeat_every_s must be >= 0"
  else if cfg.input.max_ticks < 0 then
    Status.invalid_argument "input.max_ticks must be >= 0"
  else if cfg.input.max_run_s < 0 then
    Status.invalid_argument "input.max_run_s must be >= 0"
  else if cfg.input.synth.num_points ≤ 0 then
    Status.invalid_argument "input.synth.num_points must be > 0"
  else if cfg.input.type ≠ "synth" ∧ cfg.input.type ≠ "frame_dir" then
    Status.invalid_argument "input.type must be 'synth' or 'frame_dir'"
  else if cfg.input.type = "frame_dir" ∧ cfg.input.frame_dir.path = "" then
    Status.invalid_argument "input.frame_dir.path must not be empty for frame_dir input"
  else Status.ok_status

/-- CLI overrides of `main` (`src/unnamed/part_000`). -/
structure Args where
  config_path : String := ""
  mode : String := ""
  dataset_path : String := ""
  out_dir : String := ""
  node_id : String := ""
deriving DecidableEq, Repr

def to_lower (s : String) : String := String.mk (s.data.map Char.toLower)

/-- `parse_mode` from `src/unnamed/part_000`. -/
def parse_mode (s : String) : Except Status RunMode :=
  if to_lower s = "replay" then Except.ok RunMode.kReplay
  else if to_lower s = "live" then Except.ok RunMode.kLive
  else Except.error (Status.invalid_argument ("unknown mode: " ++ s))

/-- The override block of `main` (`src/unnamed/part_000`, lines 202-216):
apply the CLI overrides in source order; a bad `--mode` value exits with
code 2. -/
def main_apply_overrides (args : Args) (cfg : Config) : Except Nat Config :=
  let cfg1 := if args.node_id = "" then cfg else { cfg with node_id := args.node_id }
  match (if args.mode = "" then Except.ok cfg1.mode else parse_mode args.mode) with
  | Except.error _ => Except.error 2
  | Except.ok m =>
    let cfg2 := { cfg1 with mode := m }
    let cfg3 := if args.dataset_path = "" then cfg2
      else { cfg2 with replay := { cfg2.replay with dataset_path := args.dataset_path } }
    Except.ok (if args.out_dir = "" then cfg3
      else { cfg3 with output := { cfg3.output with out_dir := args.out_dir } })

/-- Lines 217-222 of `main`: re-validate after the overrides; `main`
proceeds with the overridden config only when the re-validation succeeds,
otherwise it exits with code 2. -/
def main_prepare_config (args : Args) (cfg : Config) : Except Nat Config :=
  match main_apply_overrides args cfg with
  | Except.error c => Except.error c
  | Except.ok cfg4 =>
    if (validate_config cfg4).isOk then Except.ok cfg4 else Except.error 2

/-- C3 counterexample: a configuration whose baseline warmup and capture
durations are negative — duration fields outside the documented non-negative
range — still passes `validate_config` unchanged, because the baseline
durations are not among the checked fields. -/
theorem validate_config_accepts_negative_baseline_durations :
    validate_config
        { baseline := { capture_duration_ns := -1, warmup_duration_ns := -1 } }
      = Status.ok_status
    ∧ (({ baseline := { capture_duration_ns := -1, warmup_duration_ns := -1 } }
        : Config).baseline.warmup_duration_ns < 0) :=
  ⟨by decide, by decide⟩

/-- C3 (amended): a configuration that passes `validate_config` has every
checked field within its range — non-empty node id and output directory,
strictly positive voxel size, block size, budgets, tick rate and synth point
count, a valid ROI box, non-negative persistence and loop limits, and a known
input type with a dataset path when required — and `main` re-runs
`validate_config` after applying the CLI overrides, so the configuration it
proceeds with passes the same checks; fields `validate_config` does not read
(notably the baseline warmup/capture durations) are not constrained. -/
theorem validate_config_checked_ranges :
    (∀ cfg : Config, (validate_config cfg).isOk = true →
      cfg.node_id ≠ "" ∧ 0 < cfg.mapping.voxel_size_m ∧ 0 < cfg.mapping.block_size_vox
      ∧ (AABB.mk cfg.mapping.roi.min cfg.mapping.roi.max).is_valid = true
      ∧ 0 ≤ cfg.change.persistence_ns ∧ 0 < cfg.budgets.max_points_per_sec
      ∧ 0 < cfg.budgets.target_fps ∧ cfg.output.out_dir ≠ ""
      ∧ 0 < cfg.input.tick_hz ∧ 0 ≤ cfg.input.heartbeat_every_s
      ∧ 0 ≤ cfg.input.max_ticks ∧ 0 ≤ cfg.input.max_run_s
      ∧ 0 < cfg.input.synth.num_points
      ∧ (cfg.input.type = "synth" ∨ cfg.input.type = "frame_dir")
      ∧ (cfg.input.type = "frame_dir" → cfg.input.frame_dir.path ≠ ""))
    ∧ (∀ args cfg cfg2, main_prepare_config args cfg = Except.ok cfg2 →
        (validate_config cfg2).isOk = true) := by
  constructor
  · intro cfg h
    rw [validate_config] at h
    by_cases h1 : cfg.node_id = ""
    · rw [if_pos h1] at h
      exact absurd h (by decide)
    rw [if_neg h1] at h
    by_cases h2 : cfg.mapping.voxel_size_m ≤ 0
    · rw [if_pos h2] at h
      exact absurd h (by decide)
    rw [if_neg h2] at h
    by_cases h3 : cfg.mapping.block_size_vox ≤ 0
    · rw [if_pos h3] at h
      exact absurd h (by decide)
    rw [if_neg h3] at h
    by_cases h4 : (AABB.mk cfg.mapping.roi.min cfg.mapping.roi.max).is_valid = false
    · rw [if_pos h4] at h
      exact absurd h (by decide)
    rw [if_neg h4] at h
    by_cases h5 : cfg.change.persistence_ns < 0
    · rw [if_pos h5] at h
      exact absurd h (by decide)
    rw [if_neg h5] at h
    by_cases h6 : cfg.budgets.max_points_per_sec ≤ 0
    · rw [if_pos h6] at h
      exact absurd h (by decide)
    rw [if_neg h6] at h
    by_cases h7 : cfg.budgets.target_fps ≤ 0
    · rw [if_pos h7] at h
      exact absurd h (by decide)
    rw [if_neg h7] at h
    by_cases h8 : cfg.output.out_dir = ""
    · rw [if_pos h8] at h
      exact absurd h (by decide)
    rw [if_neg h8] at h
    by_cases h9 : cfg.input.tick_hz ≤ 0
    · rw [if_pos h9] at h
      exact absurd h (by decide)
    rw [if_neg h9] at h
    by_cases h10 : cfg.input.heartbeat_every_s < 0
    · rw [if_pos h10] at h
      exact absurd h (by decide)
    rw [if_neg h10] at h
    by_cases h11 : cfg.input.max_ticks < 0
    · rw [if_pos h11] at h
      exact absurd h (by decide)
    rw [if_neg h11] at h
    by_cases h12 : cfg.input.max_run_s < 0
    · rw [if_pos h12] at h
      exact absurd h (by decide)
    rw [if_neg h12] at h
    by_cases h13 : cfg.input.synth.num_points ≤ 0
    · rw [if_pos h13] at h
      exact absurd h (by decide)
    rw [if_neg h13] at h
    by_cases h14 : cfg.input.type ≠ "synth" ∧ cfg.input.type ≠ "frame_dir"
    · rw [if_pos h14] at h
      exact absurd h (by decide)
    rw [if_neg h14] at h
    by_cases h15 : cfg.input.type = "frame_dir" ∧ cfg.input.frame_dir.path = ""
    · rw [if_pos h15] at h
      exact absurd h (by decide)
    rw [if_neg h15] at h
    refine ⟨h1, not_le.mp h2, not_le.mp h3,
      (Bool.eq_false_or_eq_true _).resolve_right h4,
      not_lt.mp h5, not_le.mp h6, not_le.mp h7, h8, not_le.mp h9,
      not_lt.mp h10, not_lt.mp h11, not_lt.mp h12, not_le.mp h13, ?_, ?_⟩
    · by_cases hs : cfg.input.type = "synth"
      · exact Or.inl hs
      · refine Or.inr ?_
        by_contra hf
        exact h14 ⟨hs, hf⟩
    · intro hfd
      by_contra hp
      exact h15 ⟨hfd, hp⟩
  · intro args cfg cfg2 h
    rw [main_prepare_config] at h
    cases hx : main_apply_overrides args cfg with
    | error c =>
      rw [hx] at h
      dsimp only at h
      cases h
    | ok cfg4 =>
      rw [hx] at h
      dsimp only at h
      by_cases hv : (validate_config cfg4).isOk = true
      · rw [if_pos hv] at h
        injection h with hh
        rw [← hh]
        exact hv
      · rw [if_neg hv] at h
        cases h

/-- C3 witness: the theorem applied to the default configuration and to one
concrete CLI-override run. -/
theorem validate_config_checked_ranges_witness :
    ((validate_config {}).isOk = true ∧ 0 < ({} : Config).mapping.voxel_size_m)
    ∧ (main_prepare_config { node_id := "node_009" } {}
        = Except.ok { node_id := "node_009" }
      ∧ (validate_config ({ node_id := "node_009" } : Config)).isOk = true) :=
  ⟨⟨by decide, (validate_config_checked_ranges.1 {} (by decide)).2.1⟩,
    ⟨by rfl, validate_config_checked_ranges.2 { node_id := "node_009" } {}
      { node_id := "node_009" } (by rfl)⟩⟩

/-- C2: with more than 50 matching `events_<digits>.jsonl` files in the output
directory (all file names distinct, every deletion succeeding), pruning at the
retention count 50 that `NodeRunner::start` passes leaves exactly 50 matching
files, their embedded epoch-ns keys are the 50 largest present, and files not
matching the pattern are untouched. -/
theorem prune_retention_bound (dir : List DirEntry)
    (hnd : (dir.map Prod.fst).Nodup)
    (hN : 50 < (dir.filter matchingRunLog).length) :
    ((prune_out_dir 50 dir).filter matchingRunLog).length = 50
    ∧ ((((prune_out_dir 50 dir).filter matchingRunLog).map Prod.fst).map
        parse_events_epoch_ns_from_name).Perm
        ((List.insertionSort intGe (((dir.filter matchingRunLog).map Prod.fst).map
          parse_events_epoch_ns_from_name)).take 50)
    ∧ (prune_out_dir 50 dir).filter (fun e => !matchingRunLog e)
        = dir.filter (fun e => !matchingRunLog e)
    ∧ (∀ (r : NodeRunner) (now : Int) (sink : JsonlEventSink),
        (r.start dir now sink).2.2.1 = prune_out_dir 50 dir) :=
  ⟨(prune_spec 50 dir hnd hN).1, (prune_spec 50 dir hnd hN).2.1,
    (prune_spec 50 dir hnd hN).2.2, fun _ _ _ => rfl⟩

/-- Concrete 51-file directory used to witness the pruning bound. -/
def pruneWitnessDir : List DirEntry :=
  (List.range 51).map (fun i => ("events_" ++ toString (100 + i) ++ ".jsonl", true))

/-- C2 witness: on a concrete directory of 51 matching run files the theorem
applies and exactly 50 matching files survive. -/
theorem prune_retention_bound_witness :
    ((pruneWitnessDir.map Prod.fst).Nodup
      ∧ 50 < (pruneWitnessDir.filter matchingRunLog).length)
    ∧ ((prune_out_dir 50 pruneWitnessDir).filter matchingRunLog).length = 50 :=
  ⟨⟨by decide, by decide⟩,
    (prune_retention_bound pruneWitnessDir (by decide) (by decide)).1⟩
